import Mathlib

/-!
# Verification of the simworld simulation core

A shallow embedding, over the rational numbers, of the simulation core of the
simworld repository: the terrain-valuation system, the economic engine, the
construction scheduler and the grid pathfinder.  JavaScript numbers are
modelled as rationals; `Math.sqrt`, `Math.exp` and `Math.log` (whose values
are irrational) are abstracted as an oracle parameter `RealFns`, and every
theorem below is quantified over that oracle, so no conclusion depends on the
oracle's values.  `Math.random()` is modelled as an injected stream of
rationals consumed by a counter.  JavaScript `Map`s are modelled as
association lists, `undefined`-able numeric fields as `Option ℚ` (with
JavaScript truthiness: `none` and `some 0` are falsy).
-/

namespace SimWorld

/-- JavaScript `Math.round`: round half towards positive infinity. -/
def jsRound (q : ℚ) : ℤ := ⌊q + 1/2⌋

/-- JavaScript truthiness of an optional number: `undefined` and `0` are falsy. -/
def jsTruthy : Option ℚ → Bool
  | none => false
  | some v => decide (v ≠ 0)

/-- `some d < b`; `none` models `Infinity`, for which `Infinity < b` is false. -/
def optLt : Option ℚ → ℚ → Bool
  | none, _ => false
  | some v, b => decide (v < b)

/-- A THREE.Vector3 with rational coordinates. -/
structure Vec3 where
  x : ℚ
  y : ℚ
  z : ℚ
  deriving DecidableEq

/-- Squared euclidean distance between two vectors (`distanceTo` squared). -/
def distSq (a b : Vec3) : ℚ :=
  (a.x - b.x) ^ 2 + (a.y - b.y) ^ 2 + (a.z - b.z) ^ 2

/-- `THREE.Vector3.lerpVectors a b t = a + (b - a) * t`, componentwise. -/
def lerpVec (a b : Vec3) (t : ℚ) : Vec3 :=
  ⟨a.x + (b.x - a.x) * t, a.y + (b.y - a.y) * t, a.z + (b.z - a.z) * t⟩

/-- Oracle for the real-valued library functions `Math.sqrt`, `Math.exp`,
`Math.log`, whose exact values are irrational.  Every theorem is stated for an
arbitrary oracle. -/
structure RealFns where
  sqrtQ : ℚ → ℚ
  expQ : ℚ → ℚ
  logQ : ℚ → ℚ

namespace Terrain

/-- Falloff shapes of `EnvironmentalFactor` (src/unnamed/part_010). -/
inductive FalloffKind
  | linear
  | exponential
  | logarithmic
  deriving DecidableEq

/-- The factor kinds of `EnvironmentalFactor`. -/
inductive FactorKind
  | pollution
  | noise
  | traffic
  | scenic
  | water
  deriving DecidableEq

/-- `TerrainCell` (src/unnamed/part_010).  `waterDistance` is `Option ℚ`
because it is initialised to `Infinity`. -/
structure TerrainCell where
  x : ℚ
  z : ℚ
  elevation : ℚ
  baseValue : ℚ
  currentValue : ℚ
  pollution : ℚ
  noise : ℚ
  traffic : ℚ
  waterDistance : Option ℚ
  scenicValue : ℚ
  soilQuality : ℚ
  developmentCost : ℚ
  isWater : Bool
  isProtected : Bool
  zoneRestrictions : List String
  lastUpdated : ℚ
  deriving DecidableEq

/-- `EnvironmentalFactor` with a planar source position. -/
structure EnvironmentalFactor where
  kind : FactorKind
  sourceX : ℚ
  sourceZ : ℚ
  intensity : ℚ
  radius : ℚ
  falloff : FalloffKind
  deriving DecidableEq

/-- `TERRAIN_CONFIG.WATER_PROXIMITY_BONUS` (src/src/utils/gameConstants.ts). -/
def WATER_PROXIMITY_BONUS : ℚ := 3/10

/-- `TERRAIN_CONFIG.ELEVATION_FACTOR`. -/
def ELEVATION_FACTOR : ℚ := 1/5

/-- `TERRAIN_CONFIG.POLLUTION_PENALTY`. -/
def POLLUTION_PENALTY : ℚ := 1/2

/-- `TERRAIN_CONFIG.NOISE_PENALTY`. -/
def NOISE_PENALTY : ℚ := 3/10

/-- `TERRAIN_CONFIG.SCENIC_BONUS`. -/
def SCENIC_BONUS : ℚ := 2/5

/-- `TerrainSystem.calculateFalloff`: the normalized distance is
`distance / radius`; the linear (and default) branch is
`max(0, 1 - nd)`, exponential is `exp(-nd * 3)`, logarithmic is
`max(0, 1 - log(1 + nd * 2) / log 3)`. -/
def calculateFalloff (F : RealFns) (distance radius : ℚ) : FalloffKind → ℚ
  | .linear => max 0 (1 - distance / radius)
  | .exponential => F.expQ (-(distance / radius) * 3)
  | .logarithmic => max 0 (1 - F.logQ (1 + (distance / radius) * 2) / F.logQ 3)

/-- The factor-accumulation loop inside `TerrainSystem.calculateCellValue`:
returns the accumulated (pollution, noise, scenic) impacts on a cell.
A factor contributes `intensity * falloff` when the source lies within
`radius` of the cell. -/
def envImpacts (F : RealFns) (cell : TerrainCell)
    (factors : List EnvironmentalFactor) : ℚ × ℚ × ℚ :=
  factors.foldl (fun acc f =>
    let distance := F.sqrtQ ((cell.x - f.sourceX) ^ 2 + (cell.z - f.sourceZ) ^ 2)
    if distance ≤ f.radius then
      let impact := f.intensity * calculateFalloff F distance f.radius f.falloff
      match f.kind with
      | .pollution => (acc.1 + impact, acc.2.1, acc.2.2)
      | .noise => (acc.1, acc.2.1 + impact, acc.2.2)
      | .scenic => (acc.1, acc.2.1, acc.2.2 + impact)
      | _ => acc
    else acc) (0, 0, 0)

/-- `TerrainSystem.calculateBaseDevelopmentCost`. -/
def calculateBaseDevelopmentCost (elevation soilQuality : ℚ) : ℚ :=
  let cost : ℚ := 1000
  let cost := if 15 < elevation then cost * (1 + (elevation - 15) * (1/10)) else cost
  cost * (2 - soilQuality)

/-- `TerrainSystem.calculateDevelopmentCost`. -/
def calculateDevelopmentCost (cell : TerrainCell) : ℚ :=
  let cost := calculateBaseDevelopmentCost cell.elevation cell.soilQuality
  let cost := if 1/10 < cell.pollution then cost * (1 + cell.pollution) else cost
  let cost := if optLt cell.waterDistance 10 then cost * (19/20) else cost
  if cell.isProtected then cost * (3/2) else cost

/-- `TerrainSystem.calculateCellValue` (src/unnamed/part_010 lines 820-885):
recomputes a cell's environmental impacts and its `currentValue`, which is
clamped to `[0, 1]` at the end.  `now` models `Date.now()`. -/
def calculateCellValue (F : RealFns) (factors : List EnvironmentalFactor)
    (now : ℚ) (cell : TerrainCell) : TerrainCell :=
  let value := cell.baseValue
  let value :=
    match cell.waterDistance with
    | some wd =>
        if wd < 50 ∧ ¬cell.isWater then
          value + max 0 ((50 - wd) / 50) * WATER_PROXIMITY_BONUS
        else value
    | none => value
  let elevationDifference := |cell.elevation - 10|
  let elevationFactor := max 0 (1 - elevationDifference / 10) * ELEVATION_FACTOR
  let value := value + elevationFactor
  let imp := envImpacts F cell factors
  let pollution := imp.1
  let noise := imp.2.1
  let scenic := imp.2.2
  let value := value - pollution * POLLUTION_PENALTY
  let value := value - noise * NOISE_PENALTY
  let value := value + scenic * SCENIC_BONUS
  let value := value + (cell.soilQuality - 1/2) * (1/5)
  let value := if cell.isProtected then value + 3/20 else value
  let cell1 := { cell with
    pollution := pollution
    noise := noise
    scenicValue := scenic
    currentValue := max 0 (min 1 value)
    lastUpdated := now }
  { cell1 with developmentCost := calculateDevelopmentCost cell1 }

/-- C1: For every terrain cell, after any value recompute (`calculateCellValue`
runs both in the full pass `updateAllTerrainValues` and in the incremental
queued pass `updateQueuedCells`, which apply it cell by cell), the cell's
`currentValue` lies in the closed interval `[0, 1]`. -/
theorem calculateCellValue_currentValue_in_unit_interval
    (F : RealFns) (factors : List EnvironmentalFactor) (now : ℚ)
    (cell : TerrainCell) :
    0 ≤ (calculateCellValue F factors now cell).currentValue ∧
      (calculateCellValue F factors now cell).currentValue ≤ 1 :=
  ⟨le_max_left _ _, max_le zero_le_one (min_le_left _ _)⟩

/-- Keys of the terrain-cell map: the source keys cells by the string
`"gx,gz"` with `gx = Math.round(x / cellSize) * cellSize`; we use the pair
`(gx, gz)` directly. -/
abbrev TerrainKey := ℚ × ℚ

/-- The terrain-cell map, in insertion order. -/
abbrev TerrainMap := List (TerrainKey × TerrainCell)

/-- `TerrainSystem.getCellKey`. -/
def getCellKey (cellSize x z : ℚ) : TerrainKey :=
  ((jsRound (x / cellSize) : ℚ) * cellSize, (jsRound (z / cellSize) : ℚ) * cellSize)

/-- `this.terrainCells.get key` on the association-list model. -/
def lookupCell : TerrainMap → TerrainKey → Option TerrainCell
  | [], _ => none
  | (k, c) :: rest, key => if k = key then some c else lookupCell rest key

/-- `TerrainSystem.getNeighborCells`: the existing cells at the four
axis-neighbor keys of `(x, z)`. -/
def getNeighborCells (cells : TerrainMap) (cellSize x z : ℚ) : List TerrainCell :=
  ([(-cellSize, 0), (cellSize, 0), (0, -cellSize), (0, cellSize)] : List (ℚ × ℚ)).filterMap
    (fun off => lookupCell cells (getCellKey cellSize (x + off.1) (z + off.2)))

/-- The total amount accumulated for key `k` in `newPollutionMap` by the donor
loop of `TerrainSystem.spreadPollution`: every cell above the `0.05` threshold
contributes `pollution * spreadRate / neighbors.length` to each of its
existing axis-neighbors (the neighbor's own key, as in the source). -/
def donatedTo (cells : TerrainMap) (cellSize spreadRate : ℚ) (k : TerrainKey) : ℚ :=
  (cells.map (fun kc =>
    let c := kc.2
    if 1/20 < c.pollution then
      let ns := getNeighborCells cells cellSize c.x c.z
      ((ns.filter (fun n => getCellKey cellSize n.x n.z = k)).length : ℚ) *
        (c.pollution * spreadRate / (ns.length : ℚ))
    else 0)).sum

/-- Whether key `k` appears in `newPollutionMap`, i.e. some donor cell above
the threshold has an existing neighbor with key `k`. -/
def receivesSpread (cells : TerrainMap) (cellSize : ℚ) (k : TerrainKey) : Bool :=
  cells.any (fun kc =>
    decide (1/20 < kc.2.pollution) &&
      (getNeighborCells cells cellSize kc.2.x kc.2.z).any
        (fun n => getCellKey cellSize n.x n.z = k))

/-- `TerrainSystem.spreadPollution` (src/unnamed/part_010 lines 948-974):
`spreadRate = dt * 0.1`; each cell with pollution above `0.05` adds
`pollution * spreadRate / neighbors.length` to `newPollutionMap` for each of
its four existing axis-neighbors, and afterwards every mapped, non-water cell
gets `pollution := min 1 (pollution + amount)`.  The donor's own pollution is
not reduced here. -/
def spreadPollution (cells : TerrainMap) (cellSize dt : ℚ) : TerrainMap :=
  let spreadRate := dt * (1/10)
  cells.map (fun kc =>
    if receivesSpread cells cellSize kc.1 ∧ ¬kc.2.isWater then
      (kc.1, { kc.2 with
        pollution := min 1 (kc.2.pollution + donatedTo cells cellSize spreadRate kc.1) })
    else kc)

/-- A concrete terrain cell used below (only position and pollution matter). -/
def mkTerrainCell (x z pollution : ℚ) : TerrainCell :=
  ⟨x, z, 0, 1/2, 1/2, pollution, 0, 0, none, 0, 1/2, 1000, false, false, [], 0⟩

/-- A five-cell grid (cell size 2): a polluted cell at the origin and its four
pollution-free axis neighbors. -/
def spreadCells : TerrainMap :=
  [((0, 0), mkTerrainCell 0 0 (1/5)),
   ((2, 0), mkTerrainCell 2 0 0),
   ((-2, 0), mkTerrainCell (-2) 0 0),
   ((0, 2), mkTerrainCell 0 2 0),
   ((0, -2), mkTerrainCell 0 (-2) 0)]

/-- C8, counterexample: on the concrete grid `spreadCells` with `dt = 1`, the
origin cell's pollution (`1/5`, above the `0.05` threshold) is donated to its
neighbors — the pollution-free neighbor at `(2,0)` rises to `1/200` — yet the
donor's own pollution is unchanged at `1/5` after the pass, refuting the
claim's "donor pollution decreasing accordingly". -/
theorem spreadPollution_donor_not_decreased :
    (lookupCell (spreadPollution spreadCells 2 1) (0, 0)).map TerrainCell.pollution
        = some (1/5) ∧
      (lookupCell spreadCells (0, 0)).map TerrainCell.pollution = some (1/5) ∧
      (1 : ℚ)/20 < 1/5 ∧
      (lookupCell (spreadPollution spreadCells 2 1) (2, 0)).map TerrainCell.pollution
        = some (1/200) := by
  with_unfolding_all decide

/-- C8, amended: in `spreadPollution dt`, every cell whose pollution exceeds
the `0.05` threshold donates the dt-scaled share
`pollution * (dt * 0.1) / neighbors.length` to each of its existing
axis-neighbors; a previously pollution-free, non-water neighbor cell ends the
pass with pollution `> 0` (for `dt > 0`).  The donor's own pollution is not
reduced by `spreadPollution` (any cell that receives nothing is left entirely
unchanged); donor decay happens separately in `naturalRecovery`. -/
theorem spreadPollution_spreads_to_clean_neighbor (cells : TerrainMap)
    (cellSize dt : ℚ) :
    (∀ (i : ℕ) (hi : i < cells.length)
        (hi2 : i < (spreadPollution cells cellSize dt).length)
        (k₀ : TerrainKey) (c₀ n : TerrainCell),
        (k₀, c₀) ∈ cells → 1/20 < c₀.pollution → 0 < dt →
        n ∈ getNeighborCells cells cellSize c₀.x c₀.z →
        getCellKey cellSize n.x n.z = (cells.get ⟨i, hi⟩).1 →
        (cells.get ⟨i, hi⟩).2.isWater = false →
        (cells.get ⟨i, hi⟩).2.pollution = 0 →
        0 < ((spreadPollution cells cellSize dt).get ⟨i, hi2⟩).2.pollution) ∧
    (∀ (j : ℕ) (hj : j < cells.length)
        (hj2 : j < (spreadPollution cells cellSize dt).length),
        receivesSpread cells cellSize (cells.get ⟨j, hj⟩).1 = false →
        (spreadPollution cells cellSize dt).get ⟨j, hj2⟩ = cells.get ⟨j, hj⟩) := by
  have hget : ∀ (j : ℕ) (hj2 : j < (spreadPollution cells cellSize dt).length)
      (hj : j < cells.length),
      (spreadPollution cells cellSize dt).get ⟨j, hj2⟩ =
        (fun kc : TerrainKey × TerrainCell =>
          if receivesSpread cells cellSize kc.1 ∧ ¬kc.2.isWater then
            (kc.1, { kc.2 with
              pollution := min 1 (kc.2.pollution +
                donatedTo cells cellSize (dt * (1/10)) kc.1) })
          else kc) (cells.get ⟨j, hj⟩) := by
    intro j hj2 hj
    simp [spreadPollution, List.get_map]
  constructor
  · intro i hi hi2 k₀ c₀ n hmem hp hdt hn hkey hw hclean
    rw [hget i hi2 hi]
    dsimp only
    have hrecv : receivesSpread cells cellSize (cells.get ⟨i, hi⟩).1 = true := by
      unfold receivesSpread
      rw [List.any_eq_true]
      refine ⟨(k₀, c₀), hmem, ?_⟩
      rw [Bool.and_eq_true, decide_eq_true_eq, List.any_eq_true]
      exact ⟨hp, n, hn, by rw [decide_eq_true_eq]; exact hkey⟩
    have hcond : receivesSpread cells cellSize (cells.get ⟨i, hi⟩).1 = true ∧
        ¬(cells.get ⟨i, hi⟩).2.isWater = true := by
      refine ⟨hrecv, ?_⟩
      rw [hw]
      exact Bool.false_ne_true
    rw [if_pos hcond]
    dsimp only
    rw [hclean, zero_add]
    have hsum : 0 < donatedTo cells cellSize (dt * (1/10)) (cells.get ⟨i, hi⟩).1 := by
      unfold donatedTo
      set g := fun kc : TerrainKey × TerrainCell =>
        if 1/20 < kc.2.pollution then
          let ns := getNeighborCells cells cellSize kc.2.x kc.2.z
          ((ns.filter (fun m =>
              getCellKey cellSize m.x m.z = (cells.get ⟨i, hi⟩).1)).length : ℚ) *
            (kc.2.pollution * (dt * (1/10)) / (ns.length : ℚ))
        else 0 with hg
      have hnonneg : ∀ x ∈ cells.map g, 0 ≤ x := by
        intro x hx
        obtain ⟨kc, _, rfl⟩ := List.mem_map.1 hx
        rw [hg]
        dsimp only
        split
        · next hkc =>
            have hpol : (0 : ℚ) < kc.2.pollution :=
              lt_trans (show (0 : ℚ) < 1/20 by norm_num) hkc
            exact mul_nonneg (Nat.cast_nonneg _)
              (div_nonneg (mul_nonneg hpol.le (by positivity)) (Nat.cast_nonneg _))
        · exact le_refl 0
      have hdonor : 0 < g (k₀, c₀) := by
        rw [hg]
        dsimp only
        rw [if_pos hp]
        have hns : 0 < (getNeighborCells cells cellSize c₀.x c₀.z).length :=
          List.length_pos.2 (List.ne_nil_of_mem hn)
        have hcount : 0 < ((getNeighborCells cells cellSize c₀.x c₀.z).filter
            (fun m => getCellKey cellSize m.x m.z = (cells.get ⟨i, hi⟩).1)).length := by
          refine List.length_pos.2 (List.ne_nil_of_mem (a := n) ?_)
          rw [List.mem_filter]
          exact ⟨hn, by rw [decide_eq_true_eq]; exact hkey⟩
        have hpos : (0 : ℚ) < c₀.pollution * (dt * (1/10)) / ((getNeighborCells cells
            cellSize c₀.x c₀.z).length : ℚ) := by
          apply div_pos
          · exact mul_pos (lt_trans (by norm_num) hp) (by positivity)
          · exact_mod_cast hns
        exact mul_pos (by exact_mod_cast hcount) hpos
      calc (0 : ℚ) < g (k₀, c₀) := hdonor
        _ ≤ (cells.map g).sum :=
            List.single_le_sum hnonneg _ (List.mem_map_of_mem g hmem)
    exact lt_min one_pos hsum
  · intro j hj hj2 hrecv
    rw [hget j hj2 hj]
    dsimp only
    have hne : ¬(receivesSpread cells cellSize (cells.get ⟨j, hj⟩).1 = true ∧
        ¬(cells.get ⟨j, hj⟩).2.isWater = true) := by
      intro hcond
      rw [hrecv] at hcond
      exact Bool.false_ne_true hcond.1
    rw [if_neg hne]

set_option maxRecDepth 10000 in
/-- C8, amended, witness: on the concrete grid `spreadCells` with `dt = 1`,
the pollution-free neighbor at index 1 (key `(2,0)`) ends the pass with
positive pollution, and the entry at index 0 (the donor, which receives
nothing) is unchanged. -/
theorem spreadPollution_spreads_to_clean_neighbor_witness :
    0 < ((spreadPollution spreadCells 2 1).get
        ⟨1, by with_unfolding_all decide⟩).2.pollution ∧
      (spreadPollution spreadCells 2 1).get ⟨0, by with_unfolding_all decide⟩ =
        spreadCells.get ⟨0, by decide⟩ :=
  ⟨(spreadPollution_spreads_to_clean_neighbor spreadCells 2 1).1 1 (by decide)
      (by with_unfolding_all decide) (0, 0) (mkTerrainCell 0 0 (1/5))
      (mkTerrainCell 2 0 0) (by with_unfolding_all decide)
      (by norm_num [mkTerrainCell]) (by norm_num)
      (by with_unfolding_all decide) (by with_unfolding_all decide)
      (by with_unfolding_all decide) (by with_unfolding_all decide),
    (spreadPollution_spreads_to_clean_neighbor spreadCells 2 1).2 0 (by decide)
      (by with_unfolding_all decide) (by with_unfolding_all decide)⟩

end Terrain

/-! ## Shared game types (src/unnamed/part_007, src/src/types) -/

/-- `ZoneType`. -/
inductive ZoneType
  | residential
  | commercial
  | industrial
  | office
  deriving DecidableEq

/-- `WealthLevel`. -/
inductive WealthLevel
  | low
  | medium
  | high
  deriving DecidableEq

/-- `BuildingStatus`. -/
inductive BuildingStatus
  | planned
  | constructing
  | operational
  | abandoned
  | demolishing
  deriving DecidableEq

/-- `EmploymentStatus`. -/
inductive EmploymentStatus
  | unemployed
  | employed
  | student
  | retired
  deriving DecidableEq

/-- `EducationLevel`. -/
inductive EducationLevel
  | noSchool
  | primary
  | secondary
  | university
  | advanced
  deriving DecidableEq

/-- `AgentType`. -/
inductive AgentType
  | citizen
  | vehicle
  | resource
  | service
  deriving DecidableEq

/-- `Building` (src/unnamed/part_007), restricted to the fields the embedded
simulation core reads or writes. -/
structure Building where
  id : String
  position : Vec3
  zoneType : Option ZoneType
  wealthLevel : WealthLevel
  level : ℚ
  status : BuildingStatus
  constructionProgress : ℚ
  capacity : ℚ
  property_value : ℚ
  deriving DecidableEq

/-- The `status` sub-record of `Agent`, restricted to the fields read here. -/
structure AgentStatus where
  education : EducationLevel
  employment : EmploymentStatus
  deriving DecidableEq

/-- `Agent`, restricted to the fields the economic engine reads. -/
structure Agent where
  id : String
  type : AgentType
  position : Vec3
  status : AgentStatus
  homeId : Option String
  workplaceId : Option String
  deriving DecidableEq

/-- `List Char` prefix test (character-by-character). -/
def charsPrefix : List Char → List Char → Bool
  | [], _ => true
  | _ :: _, [] => false
  | a :: as, b :: bs => a = b && charsPrefix as bs

/-- Whether `sub` occurs as a contiguous sublist. -/
def charsSub (sub : List Char) : List Char → Bool
  | [] => charsPrefix sub []
  | c :: rest => charsPrefix sub (c :: rest) || charsSub sub rest

/-- JavaScript `s.includes(sub)`. -/
def strIncludes (s sub : String) : Bool := charsSub sub.data s.data

namespace Econ

/-- `Business` (src/src/types/economy.ts), restricted to the fields the
engine reads or writes. -/
structure Business where
  id : String
  type : String
  buildingId : String
  accessibility : ℚ
  footTraffic : ℚ
  prestige : ℚ
  revenue : ℚ
  operatingCosts : ℚ
  profit : ℚ
  rent : ℚ
  employees : ℚ
  maxEmployees : ℚ
  wagesPerEmployee : ℚ
  efficiency : ℚ
  customerSatisfaction : ℚ
  isOperational : Bool
  daysSinceProfit : ℚ
  bankruptcyRisk : ℚ
  deriving DecidableEq

/-- `TradeGood` (src/src/types/economy.ts). -/
structure TradeGood where
  id : String
  name : String
  type : String
  basePrice : ℚ
  currentPrice : ℚ
  demand : ℚ
  supply : ℚ
  quality : ℚ
  imported : Bool
  deriving DecidableEq

/-- `wealthDistribution` sub-record of `EconomicData`. -/
structure WealthDist where
  low : ℚ
  medium : ℚ
  high : ℚ
  deriving DecidableEq

/-- `MarketConditions`, as total demand/supply tables per (zone, wealth);
the source stores the same data as nested records. -/
structure MarketConditions where
  demandByZone : ZoneType → WealthLevel → ℚ
  supplyByZone : ZoneType → WealthLevel → ℚ

/-- `EconomicData` (src/src/types/economy.ts), restricted to the fields the
engine reads or writes. -/
structure EconomicData where
  funds : ℚ
  income : ℚ
  expenses : ℚ
  netIncome : ℚ
  residentialTaxRate : ℚ
  commercialTaxRate : ℚ
  industrialTaxRate : ℚ
  officeTaxRate : ℚ
  totalTaxRevenue : ℚ
  totalLoans : ℚ
  creditRating : ℚ
  cityLevel : ℚ
  wealthDistribution : WealthDist
  marketConditions : MarketConditions

/-- `EconomicReport` (src/unnamed/part_008). -/
structure EconomicReport where
  gdp : ℚ
  unemployment : ℚ
  inflation : ℚ
  tradeBalance : ℚ
  governmentRevenue : ℚ
  governmentExpenses : ℚ
  cityRating : String
  deriving DecidableEq

/-- The `EconomicEngine` class state.  `Math.random()` is modelled by the
injected stream `randStream` read at `randCounter`. -/
structure EconomicEngine where
  economicData : EconomicData
  businesses : List Business
  tradeGoods : List (String × TradeGood)
  inflationRate : ℚ
  interestRate : ℚ
  randStream : ℕ → ℚ
  randCounter : ℕ

/-- `EconomicEngine.initializeTradeGoods`: the six base goods, all created
with `currentPrice = basePrice`, `demand = supply = 100`, `quality = 1`,
`imported = true`. -/
def initializeTradeGoods : List (String × TradeGood) :=
  [("food", ⟨"food", "Food Products", "food", 100, 100, 100, 100, 1, true⟩),
   ("materials", ⟨"materials", "Raw Materials", "raw_materials", 200, 200, 100, 100, 1, true⟩),
   ("manufactured", ⟨"manufactured", "Manufactured Goods", "manufactured_goods", 300, 300, 100, 100, 1, true⟩),
   ("luxury", ⟨"luxury", "Luxury Items", "luxury_items", 500, 500, 100, 100, 1, true⟩),
   ("energy", ⟨"energy", "Energy", "energy", 150, 150, 100, 100, 1, true⟩),
   ("technology", ⟨"technology", "Technology", "technology", 400, 400, 100, 100, 1, true⟩)]

/-- The `EconomicEngine` constructor: copies the initial data, starts with no
businesses, the six initial trade goods, inflation `0.02`, interest `0.05`. -/
def mkEconomicEngine (initialData : EconomicData) (stream : ℕ → ℚ) : EconomicEngine :=
  ⟨initialData, [], initializeTradeGoods, 1/50, 1/20, stream, 0⟩

/-- `EconomicEngine.updateMarketConditions`: rebuilds the demand and supply
tables for every (zone, wealth) bucket (the source assigns every entry of the
nested records in two loops; we rebuild the total tables directly). -/
def updateMarketConditions (e : EconomicEngine) (buildings : List Building)
    (agents : List Agent) : EconomicEngine :=
  let residents := agents.filter (fun a => a.type = AgentType.citizen)
  let population : ℚ := residents.length
  let employedCitizens : ℚ :=
    (residents.filter (fun a => a.status.employment = .employed)).length
  let unemploymentRate :=
    if 0 < population then (population - employedCitizens) / population else 0
  let demandFor := fun (zone : ZoneType) (wealth : WealthLevel) =>
    let demand := population * (1/100)
    let demand := demand * (1 - unemploymentRate * (1/2))
    let wealthFactor : ℚ :=
      match wealth with
      | .low => 3/5
      | .medium => 1
      | .high => 9/5
    let demand := demand * wealthFactor
    let demand :=
      match zone with
      | .residential => demand * (6/5)
      | .commercial => demand * (4/5 + employedCitizens / max 1 population * (2/5))
      | .industrial => demand * (3/5)
      | .office => demand * (7/10 + (e.economicData.cityLevel - 1) * (1/10))
    max 0 demand
  let supplyFor := fun (zone : ZoneType) (wealth : WealthLevel) =>
    ((buildings.filter (fun b =>
        b.zoneType = some zone ∧ b.wealthLevel = wealth ∧
          b.status = .operational)).map (fun b => b.capacity)).sum
  { e with economicData := { e.economicData with
      marketConditions := ⟨demandFor, supplyFor⟩ } }

/-- The `typeMultipliers` table of `calculateBusinessRevenue`
(`typeMultipliers[business.type] || 1.0`; all table values are nonzero). -/
def typeMultiplier (t : String) : ℚ :=
  if t = "retail_store" then 1
  else if t = "restaurant" then 13/10
  else if t = "service_shop" then 4/5
  else if t = "entertainment" then 3/2
  else if t = "manufacturing" then 2
  else if t = "warehouse" then 3/5
  else if t = "processing_plant" then 9/5
  else if t = "logistics" then 11/10
  else if t = "consulting" then 7/5
  else if t = "tech_company" then 11/5
  else if t = "financial_services" then 8/5
  else if t = "corporate_office" then 6/5
  else 1

/-- The `supplyCosts` table of `calculateOperatingCosts`
(`supplyCosts[business.type] || 0.3`). -/
def supplyCostMultiplier (t : String) : ℚ :=
  if t = "retail_store" then 2/5
  else if t = "restaurant" then 3/5
  else if t = "service_shop" then 1/5
  else if t = "manufacturing" then 1/2
  else if t = "warehouse" then 1/10
  else if t = "processing_plant" then 7/10
  else if t = "office" then 1/10
  else 3/10

/-- JavaScript truthiness of an optional string (`undefined` and the empty
string are falsy). -/
def strTruthy : Option String → Bool
  | none => false
  | some s => decide (s ≠ "")

/-- `EconomicEngine.calculateBusinessRevenue`.  `distanceTo < 20` is modelled
by the equivalent squared-distance comparison; the `|| 1` on the demand lookup
is the JavaScript zero-is-falsy fallback. -/
def calculateBusinessRevenue (e : EconomicEngine) (business : Business)
    (building : Building) (agents : List Agent) : ℚ :=
  let baseRevenue : ℚ := 1000
  let baseRevenue := baseRevenue * (1 + business.accessibility * (3/10))
  let baseRevenue := baseRevenue * (1 + business.footTraffic * (1/2))
  let baseRevenue := baseRevenue * (1 + business.prestige * (1/5))
  let baseRevenue :=
    match building.zoneType with
    | some z =>
        let d := e.economicData.marketConditions.demandByZone z building.wealthLevel
        let demand := if d = 0 then 1 else d
        baseRevenue * max (1/10) (min 2 (demand / 100))
    | none => baseRevenue
  let nearbyResidents : ℚ := (agents.filter (fun a =>
      a.type = .citizen ∧ strTruthy a.homeId ∧
        distSq building.position a.position < 400)).length
  let baseRevenue := baseRevenue * (1 + nearbyResidents * (1/100))
  baseRevenue * typeMultiplier business.type

/-- `EconomicEngine.calculateOperatingCosts`.  `business.rent || ...` is the
JavaScript zero-is-falsy fallback to `property_value * 0.001`.  Reads the
business's previous `revenue` field. -/
def calculateOperatingCosts (business : Business) (building : Building) : ℚ :=
  let costs : ℚ := 500
  let costs := costs +
    (if business.rent = 0 then building.property_value * (1/1000) else business.rent)
  let costs := costs + building.capacity * 2
  let costs := costs + business.employees * business.wagesPerEmployee / 30
  costs + business.revenue * supplyCostMultiplier business.type

/-- `EconomicEngine.getSupplyDemandRatio` (`|| 1` fallbacks, `max(1, demand)`
denominator guard). -/
def getSupplyDemandRatio (e : EconomicEngine) (z : ZoneType) (w : WealthLevel) : ℚ :=
  let s := e.economicData.marketConditions.supplyByZone z w
  let supply := if s = 0 then 1 else s
  let d := e.economicData.marketConditions.demandByZone z w
  let demand := if d = 0 then 1 else d
  supply / max 1 demand

/-- The `skillLevels` table of `calculateAverageSkillLevel`. -/
def skillLevelOf : EducationLevel → ℚ
  | .noSchool => 1/5
  | .primary => 2/5
  | .secondary => 3/5
  | .university => 4/5
  | .advanced => 1

/-- `EconomicEngine.calculateAverageSkillLevel`. -/
def calculateAverageSkillLevel (business : Business) (agents : List Agent) : ℚ :=
  let employees := agents.filter (fun a =>
    a.workplaceId = some business.buildingId ∧ a.status.employment = .employed)
  if employees.length = 0 then 3/10
  else ((employees.map (fun a => skillLevelOf a.status.education)).sum) /
    (employees.length : ℚ)

/-- `EconomicEngine.calculateBusinessEfficiency`, clamped to `[0.1, 1.5]`. -/
def calculateBusinessEfficiency (e : EconomicEngine) (business : Business)
    (building : Building) (agents : List Agent) : ℚ :=
  let efficiency : ℚ := 1/2
  let efficiency := efficiency + business.accessibility * (1/5)
  let efficiency := efficiency + business.prestige * (3/20)
  let efficiency := efficiency + calculateAverageSkillLevel business agents * (3/10)
  let efficiency := efficiency + building.property_value / 100000 * (1/5)
  let efficiency :=
    match building.zoneType with
    | some z =>
        efficiency + max (-(1/5)) (min (1/5)
          ((1 - getSupplyDemandRatio e z building.wealthLevel) * (1/5)))
    | none => efficiency
  max (1/10) (min (3/2) efficiency)

/-- `EconomicEngine.calculateCustomerSatisfaction`, clamped to `[0, 1]`. -/
def calculateCustomerSatisfaction (business : Business) (building : Building) : ℚ :=
  let satisfaction : ℚ := 7/10
  let satisfaction := satisfaction + business.efficiency * (1/5)
  let satisfaction := satisfaction + building.property_value / 50000 * (1/10)
  let satisfaction := satisfaction + business.employees / business.maxEmployees * (1/5)
  max 0 (min 1 satisfaction)

/-- `EconomicEngine.updateBusinessEmployment` (`building.capacity || 50` is
the zero-is-falsy fallback). -/
def updateBusinessEmployment (business : Business) (building : Building)
    (agents : List Agent) : Business :=
  let currentEmployees : ℚ := ((agents.filter (fun a =>
    a.workplaceId = some business.buildingId ∧
      a.status.employment = .employed)).length : ℚ)
  let business := { business with employees := currentEmployees }
  let optimalEmployees : ℤ := ⌊business.maxEmployees * business.efficiency * (4/5)⌋
  let cap := if building.capacity = 0 then 50 else building.capacity
  { business with
    maxEmployees :=
      if currentEmployees < (optimalEmployees : ℚ) ∧ 0 < business.profit then
        min (business.maxEmployees + 1) cap
      else business.maxEmployees }

/-- The per-business body of `EconomicEngine.updateBusinesses`: a business
whose building is missing or not operational is only marked non-operational;
otherwise revenue, costs, `profit := revenue - operatingCosts`, efficiency,
satisfaction, profit tracking, bankruptcy risk and employment are updated. -/
def updateOneBusiness (e : EconomicEngine) (buildings : List Building)
    (agents : List Agent) (dt : ℚ) (business : Business) : Business :=
  match buildings.find? (fun b => b.id = business.buildingId) with
  | none => { business with isOperational := false }
  | some building =>
      if building.status ≠ .operational then { business with isOperational := false }
      else
        let revenue := calculateBusinessRevenue e business building agents
        let operatingCosts := calculateOperatingCosts business building
        let business := { business with
          revenue := revenue * dt * 24
          operatingCosts := operatingCosts * dt * 24 }
        let business := { business with
          profit := business.revenue - business.operatingCosts }
        let business := { business with
          efficiency := calculateBusinessEfficiency e business building agents }
        let business := { business with
          customerSatisfaction := calculateCustomerSatisfaction business building }
        let business := { business with
          daysSinceProfit :=
            if (0 : ℚ) < business.profit then 0
            else business.daysSinceProfit + dt }
        let business := { business with
          bankruptcyRisk := min 1 (business.daysSinceProfit / 30) }
        updateBusinessEmployment business building agents

/-- `EconomicEngine.updateBusinesses` (src/unnamed/part_008 lines 150-188). -/
def updateBusinesses (e : EconomicEngine) (buildings : List Building)
    (agents : List Agent) (dt : ℚ) : EconomicEngine :=
  { e with businesses := e.businesses.map (updateOneBusiness e buildings agents dt) }

/-- The per-good body of `EconomicEngine.updateTradeGoods` with its
`Math.random()` draw `r`: manufactured-goods supply follows industrial
output, `demand = max 20 (populationFactor + r * 20 - 10)`, and
`currentPrice = Math.round (basePrice * clamp (2 - supply / max 1 demand) 0.5 2)`. -/
def updateOneTradeGood (e : EconomicEngine) (g : TradeGood) (r : ℚ) : TradeGood :=
  let industrialOutput := ((e.businesses.filter (fun b =>
    strIncludes b.type "manufacturing" ∧ b.isOperational)).map
      (fun b => b.efficiency)).sum
  let g := { g with
    supply :=
      if g.type = "manufactured_goods" then max 50 (80 + industrialOutput * 10)
      else g.supply }
  let populationFactor :=
    e.economicData.wealthDistribution.low * (1/2) +
      e.economicData.wealthDistribution.medium * 1 +
        e.economicData.wealthDistribution.high * (3/2)
  let g := { g with demand := max 20 (populationFactor + r * 20 - 10) }
  let supplyDemandRatio := g.supply / max 1 g.demand
  let priceMultiplier := max (1/2) (min 2 (2 - supplyDemandRatio))
  { g with currentPrice := (jsRound (g.basePrice * priceMultiplier) : ℚ) }

/-- `EconomicEngine.updateTradeGoods` (src/unnamed/part_008 lines 338-362):
each good, in insertion order, consumes one `Math.random()` draw. -/
def updateTradeGoods (e : EconomicEngine) (_dt : ℚ) : EconomicEngine :=
  { e with
    tradeGoods := e.tradeGoods.enum.map (fun ig =>
      (ig.2.1, updateOneTradeGood e ig.2.2 (e.randStream (e.randCounter + ig.1))))
    randCounter := e.randCounter + e.tradeGoods.length }

/-- `EconomicEngine.getTaxRate` (`taxRates[zoneType] || 10`: a zero tax rate
falls back to 10 by JavaScript falsiness). -/
def getTaxRate (e : EconomicEngine) (z : ZoneType) : ℚ :=
  let r :=
    match z with
    | .residential => e.economicData.residentialTaxRate
    | .commercial => e.economicData.commercialTaxRate
    | .industrial => e.economicData.industrialTaxRate
    | .office => e.economicData.officeTaxRate
  if r = 0 then 10 else r

/-- `EconomicEngine.updateTaxation`: daily property tax on operational zoned
buildings plus a 25% tax on positive profits of operational businesses;
stored in both `totalTaxRevenue` and `income`. -/
def updateTaxation (e : EconomicEngine) (buildings : List Building) : EconomicEngine :=
  let propertyTax := (buildings.map (fun b =>
    match b.zoneType with
    | some z =>
        if b.status = .operational then
          b.property_value * (getTaxRate e z / 100) / 12 / 30
        else 0
    | none => 0)).sum
  let businessTax := (e.businesses.map (fun b =>
    if b.isOperational ∧ (0 : ℚ) < b.profit then b.profit * (1/4) else 0)).sum
  let totalRevenue := propertyTax + businessTax
  { e with economicData := { e.economicData with
      totalTaxRevenue := totalRevenue
      income := totalRevenue } }

/-- `EconomicEngine.updateEconomicIndicators`: one `Math.random()` draw
perturbs the inflation rate (clamped to `[0, 0.1]`); the wealth distribution
shifts only when total business wealth is positive. -/
def updateEconomicIndicators (e : EconomicEngine) (_dt : ℚ) : EconomicEngine :=
  let r := e.randStream e.randCounter
  let e := { e with randCounter := e.randCounter + 1 }
  let inflationRate := e.inflationRate + (r - 1/2) * (1/1000)
  let inflationRate := max 0 (min (1/10) inflationRate)
  let totalWealth := (e.businesses.map (fun b => max 0 b.profit)).sum
  let wd :=
    if (0 : ℚ) < totalWealth then
      let low := max 30 (60 - totalWealth * (1/100))
      let high := min 30 (10 + totalWealth * (1/200))
      ({ low := low, medium := 100 - low - high, high := high } : WealthDist)
    else e.economicData.wealthDistribution
  { e with
    inflationRate := inflationRate
    economicData := { e.economicData with wealthDistribution := wd } }

/-- `EconomicEngine.updateLoansAndInterest`. -/
def updateLoansAndInterest (e : EconomicEngine) (dt : ℚ) : EconomicEngine :=
  if (0 : ℚ) < e.economicData.totalLoans then
    let dailyInterest := e.economicData.totalLoans * e.interestRate / 365
    let expenses := e.economicData.expenses + dailyInterest * dt
    { e with economicData := { e.economicData with
        expenses := expenses
        netIncome := e.economicData.income - expenses } }
  else e

/-- `EconomicEngine.updateCityRating`: a weighted score of financial health,
fraction of profitable businesses and debt ratio, bucketed into credit-rating
tiers 100/80/60/40. -/
def updateCityRating (e : EconomicEngine) : EconomicEngine :=
  let financialHealth := max 0 (min 1 (e.economicData.funds / 100000))
  let economicGrowth := ((e.businesses.filter (fun b =>
      b.isOperational ∧ (0 : ℚ) < b.profit)).length : ℚ) /
    max 1 (e.businesses.length : ℚ)
  let debtRatio := e.economicData.totalLoans / max 1 e.economicData.funds
  let score :=
    (financialHealth * (2/5) + economicGrowth * (2/5) - min 1 debtRatio * (1/5)) * 100
  let creditRating : ℚ :=
    if 80 ≤ score then 100
    else if 60 ≤ score then 80
    else if 40 ≤ score then 60
    else 40
  { e with economicData := { e.economicData with creditRating := creditRating } }

/-- `EconomicEngine.generateEconomicReport` (src/unnamed/part_008 lines
433-468).  The unemployment percentage is 0 for zero population; exports sum
non-imported goods, imports sum imported goods; out-of-range rating indices
fall back to the string CCC. -/
def generateEconomicReport (e : EconomicEngine) (_buildings : List Building)
    (agents : List Agent) : EconomicReport :=
  let population : ℚ := ((agents.filter (fun a => a.type = .citizen)).length : ℚ)
  let employedPopulation : ℚ := ((agents.filter (fun a =>
    a.type = .citizen ∧ a.status.employment = .employed)).length : ℚ)
  let unemployment :=
    if 0 < population then (population - employedPopulation) / population * 100 else 0
  let gdp := ((e.businesses.map (fun b =>
    if b.isOperational then b.revenue else 0)).sum) * 365
  let exportValue := (e.tradeGoods.map (fun kg =>
    if kg.2.imported then 0 else kg.2.supply * kg.2.currentPrice)).sum
  let importValue := (e.tradeGoods.map (fun kg =>
    if kg.2.imported then kg.2.demand * kg.2.currentPrice else 0)).sum
  let tradeBalance := exportValue - importValue
  let cityRatings : List String := ["AAA", "AA", "A", "BBB", "BB", "B", "CCC"]
  let ratingIndex : ℤ := ⌊e.economicData.creditRating / 100 * 6⌋
  let cityRating :=
    if ratingIndex < 0 ∨ 6 < ratingIndex then "CCC"
    else cityRatings.getD ratingIndex.toNat "CCC"
  ⟨gdp, unemployment, e.inflationRate * 100, tradeBalance,
    e.economicData.income, e.economicData.expenses, cityRating⟩

/-- `EconomicEngine.updateEconomy` (src/unnamed/part_008 lines 63-86): the
full per-tick pipeline, returning the new engine state and the report. -/
def updateEconomy (e : EconomicEngine) (dt : ℚ) (buildings : List Building)
    (agents : List Agent) : EconomicEngine × EconomicReport :=
  let e := updateMarketConditions e buildings agents
  let e := updateBusinesses e buildings agents dt
  let e := updateTradeGoods e dt
  let e := updateTaxation e buildings
  let e := updateEconomicIndicators e dt
  let e := updateLoansAndInterest e dt
  let e := updateCityRating e
  (e, generateEconomicReport e buildings agents)

lemma updateBusinessEmployment_profit (business : Business) (building : Building)
    (agents : List Agent) :
    (updateBusinessEmployment business building agents).profit = business.profit := by
  rfl

lemma updateBusinessEmployment_revenue (business : Business) (building : Building)
    (agents : List Agent) :
    (updateBusinessEmployment business building agents).revenue = business.revenue := by
  rfl

lemma updateBusinessEmployment_operatingCosts (business : Business)
    (building : Building) (agents : List Agent) :
    (updateBusinessEmployment business building agents).operatingCosts =
      business.operatingCosts := by
  rfl

lemma updateBusinessEmployment_buildingId (business : Business)
    (building : Building) (agents : List Agent) :
    (updateBusinessEmployment business building agents).buildingId =
      business.buildingId := by
  rfl

lemma updateOneBusiness_buildingId (e : EconomicEngine) (buildings : List Building)
    (agents : List Agent) (dt : ℚ) (b : Business) :
    (updateOneBusiness e buildings agents dt b).buildingId = b.buildingId := by
  unfold updateOneBusiness
  cases hfb : buildings.find? (fun bb => bb.id = b.buildingId) with
  | none => rfl
  | some building =>
      dsimp only
      split
      · rfl
      · rw [updateBusinessEmployment_buildingId]

/-- C2: Every business in the engine's list whose referenced building exists
(in the sense of `buildings.find`) and is operational satisfies
`profit = revenue - operatingCosts` after an `updateBusinesses` pass. -/
theorem updateBusinesses_profit_eq_revenue_sub_costs
    (e : EconomicEngine) (buildings : List Building) (agents : List Agent)
    (dt : ℚ) (b' : Business) (bld : Building)
    (hmem : b' ∈ (updateBusinesses e buildings agents dt).businesses)
    (hfind : buildings.find? (fun bb => bb.id = b'.buildingId) = some bld)
    (hop : bld.status = .operational) :
    b'.profit = b'.revenue - b'.operatingCosts := by
  obtain ⟨b, hb, rfl⟩ := List.mem_map.1 hmem
  rw [updateOneBusiness_buildingId] at hfind
  unfold updateOneBusiness
  cases hfb : buildings.find? (fun bb => bb.id = b.buildingId) with
  | none => rw [hfb] at hfind; exact absurd hfind (by simp)
  | some building =>
      rw [hfb] at hfind
      have hbld : building = bld := by injection hfind
      have hbop : building.status = .operational := by rw [hbld]; exact hop
      dsimp only
      rw [if_neg (fun hne => hne hbop)]
      rw [updateBusinessEmployment_profit, updateBusinessEmployment_revenue,
        updateBusinessEmployment_operatingCosts]

/-- A concrete operational commercial building. -/
def wBuilding : Building :=
  ⟨"b1", ⟨0, 0, 0⟩, some .commercial, .medium, 1, .operational, 1, 10, 500⟩

/-- A concrete retail business referencing `wBuilding`. -/
def wBusiness : Business :=
  ⟨"biz1", "retail_store", "b1", 1/2, 1/2, 1/2, 0, 0, 0, 100, 0, 10, 30, 1/2,
    1/2, true, 0, 0⟩

/-- A concrete `EconomicData` record. -/
def wEconData : EconomicData :=
  ⟨0, 0, 0, 0, 9, 9, 9, 9, 0, 0, 100, 1, ⟨60, 30, 10⟩,
    ⟨fun _ _ => 100, fun _ _ => 100⟩⟩

/-- A concrete engine holding `wBusiness`. -/
def wEngine : EconomicEngine :=
  { mkEconomicEngine wEconData (fun _ => 1/2) with businesses := [wBusiness] }

/-- The trade-good price formula of `updateTradeGoods`, stated on the output
good's own (post-pass) fields. -/
lemma updateOneTradeGood_currentPrice (e : EconomicEngine) (g : TradeGood) (r : ℚ) :
    (updateOneTradeGood e g r).currentPrice =
      (jsRound ((updateOneTradeGood e g r).basePrice *
        max (1/2) (min 2 (2 - (updateOneTradeGood e g r).supply /
          max 1 (updateOneTradeGood e g r).demand))) : ℚ) := rfl

/-- C9, amended: after each `updateTradeGoods` pass, every good's
`currentPrice` equals `basePrice × clamp(2 − supply / max(1, demand), 0.5, 2.0)`
rounded to the nearest integer by `Math.round`; consequently, whenever
`basePrice` is an even natural number (as all six catalog prices are),
`0.5 × basePrice ≤ currentPrice ≤ 2 × basePrice`. -/
theorem updateTradeGoods_price_formula (e : EconomicEngine) (dt : ℚ)
    (gid : String) (g' : TradeGood)
    (hmem : (gid, g') ∈ (updateTradeGoods e dt).tradeGoods)
    (n : ℕ) (hbp : g'.basePrice = 2 * n) :
    g'.currentPrice = (jsRound (g'.basePrice *
        max (1/2) (min 2 (2 - g'.supply / max 1 g'.demand))) : ℚ) ∧
      g'.basePrice / 2 ≤ g'.currentPrice ∧ g'.currentPrice ≤ 2 * g'.basePrice := by
  have hform : g'.currentPrice = (jsRound (g'.basePrice *
      max (1/2) (min 2 (2 - g'.supply / max 1 g'.demand))) : ℚ) := by
    unfold updateTradeGoods at hmem
    obtain ⟨ig, _, hig⟩ := List.mem_map.1 hmem
    have hg : g' = updateOneTradeGood e ig.2.2 (e.randStream (e.randCounter + ig.1)) :=
      congrArg Prod.snd hig.symm
    rw [hg]
    exact updateOneTradeGood_currentPrice _ _ _
  refine ⟨hform, ?_, ?_⟩
  · set m := max (1/2 : ℚ) (min 2 (2 - g'.supply / max 1 g'.demand)) with hm
    have hm2 : (1/2 : ℚ) ≤ m := le_max_left _ _
    have hbp0 : (0 : ℚ) ≤ g'.basePrice := by rw [hbp]; positivity
    have hx : g'.basePrice / 2 ≤ g'.basePrice * m := by
      calc g'.basePrice / 2 = g'.basePrice * (1/2) := by ring
        _ ≤ g'.basePrice * m := mul_le_mul_of_nonneg_left hm2 hbp0
    rw [hform]
    have hfl : (n : ℤ) ≤ ⌊g'.basePrice * m + 1/2⌋ := by
      apply Int.le_floor.mpr
      push_cast
      have haux : (n : ℚ) = g'.basePrice / 2 := by rw [hbp]; ring
      linarith [hx]
    have hcast : ((n : ℤ) : ℚ) ≤ ((⌊g'.basePrice * m + 1/2⌋ : ℤ) : ℚ) := by
      exact_mod_cast hfl
    have haux : (n : ℚ) = g'.basePrice / 2 := by rw [hbp]; ring
    unfold jsRound
    push_cast at hcast
    linarith
  · set m := max (1/2 : ℚ) (min 2 (2 - g'.supply / max 1 g'.demand)) with hm
    have hm2 : m ≤ 2 := max_le (by norm_num) (min_le_left _ _)
    have hbp0 : (0 : ℚ) ≤ g'.basePrice := by rw [hbp]; positivity
    have hx : g'.basePrice * m ≤ 2 * g'.basePrice := by
      calc g'.basePrice * m ≤ g'.basePrice * 2 := mul_le_mul_of_nonneg_left hm2 hbp0
        _ = 2 * g'.basePrice := by ring
    rw [hform]
    have haux : (4 : ℚ) * n = 2 * g'.basePrice := by rw [hbp]; ring
    have hfl : ⌊g'.basePrice * m + 1/2⌋ < (4 * n : ℤ) + 1 := by
      apply Int.floor_lt.mpr
      push_cast
      linarith [hx]
    have hfl2 : ⌊g'.basePrice * m + 1/2⌋ ≤ (4 * n : ℤ) := Int.lt_add_one_iff.mp hfl
    have hcast : ((⌊g'.basePrice * m + 1/2⌋ : ℤ) : ℚ) ≤ ((4 * n : ℤ) : ℚ) := by
      exact_mod_cast hfl2
    unfold jsRound
    push_cast at hcast
    linarith

/-- The energy trade good used in the C9 concrete instances. -/
def c9EnergyGood : TradeGood := ⟨"energy", "Energy", "energy", 150, 150, 100, 100, 1, true⟩

/-- A concrete engine holding only the energy good, with wealth distribution
forcing demand to 80 under the all-zeros random stream. -/
def c9Engine : EconomicEngine :=
  { economicData :=
      ⟨0, 0, 0, 0, 9, 9, 9, 9, 0, 0, 100, 1, ⟨0, 90, 0⟩,
        ⟨fun _ _ => 100, fun _ _ => 100⟩⟩
    businesses := []
    tradeGoods := [("energy", c9EnergyGood)]
    inflationRate := 1/50
    interestRate := 1/20
    randStream := fun _ => 0
    randCounter := 0 }

set_option maxRecDepth 4000 in
/-- C9, counterexample: on `c9Engine` the pass leaves the energy good with
`supply = 100`, `demand = 80`, so the claimed exact price is
`150 × clamp(2 − 100/80, 0.5, 2) = 112.5`, but the code stores the rounded
`Math.round(112.5) = 113`. -/
theorem updateTradeGoods_price_rounded_not_exact :
    ((updateTradeGoods c9Engine 1).tradeGoods.head?).map
        (fun kg => kg.2.currentPrice) = some 113 ∧
      ((updateTradeGoods c9Engine 1).tradeGoods.head?).map (fun kg =>
        kg.2.basePrice * max (1/2) (min 2 (2 - kg.2.supply / kg.2.demand)))
          = some (225/2) ∧
      (113 : ℚ) ≠ 225/2 := by
  with_unfolding_all decide

set_option maxRecDepth 4000 in
/-- C9, amended, witness: the theorem applied to the energy good of
`c9Engine` (base price `150 = 2 × 75`). -/
theorem updateTradeGoods_price_formula_witness :
    (("energy", updateOneTradeGood c9Engine c9EnergyGood 0) ∈
        (updateTradeGoods c9Engine 1).tradeGoods) ∧
      (updateOneTradeGood c9Engine c9EnergyGood 0).basePrice = 2 * (75 : ℕ) ∧
      (updateOneTradeGood c9Engine c9EnergyGood 0).basePrice / 2 ≤
        (updateOneTradeGood c9Engine c9EnergyGood 0).currentPrice :=
  ⟨by with_unfolding_all decide, by with_unfolding_all decide,
    (updateTradeGoods_price_formula c9Engine 1 "energy" _
      (by with_unfolding_all decide) 75 (by with_unfolding_all decide)).2.1⟩

set_option maxRecDepth 4000 in
/-- C2, witness: on the concrete engine `wEngine`, after the update the single
business (whose building `wBuilding` exists and is operational) satisfies
`profit = revenue - operatingCosts`. -/
theorem updateBusinesses_profit_eq_revenue_sub_costs_witness :
    ([wBuilding].find? (fun bb => bb.id =
        (updateOneBusiness wEngine [wBuilding] [] 1 wBusiness).buildingId) =
          some wBuilding) ∧
      wBuilding.status = .operational ∧
      (updateOneBusiness wEngine [wBuilding] [] 1 wBusiness).profit =
        (updateOneBusiness wEngine [wBuilding] [] 1 wBusiness).revenue -
          (updateOneBusiness wEngine [wBuilding] [] 1 wBusiness).operatingCosts :=
  ⟨by rw [updateOneBusiness_buildingId]; with_unfolding_all decide, rfl,
    updateBusinesses_profit_eq_revenue_sub_costs wEngine [wBuilding] [] 1 _
      wBuilding (List.mem_singleton_self _)
      (by rw [updateOneBusiness_buildingId]; with_unfolding_all decide) rfl⟩

lemma updateMarketConditions_businesses (e : EconomicEngine) (b : List Building)
    (a : List Agent) : (updateMarketConditions e b a).businesses = e.businesses := rfl

lemma updateMarketConditions_tradeGoods (e : EconomicEngine) (b : List Building)
    (a : List Agent) : (updateMarketConditions e b a).tradeGoods = e.tradeGoods := rfl

lemma updateBusinesses_tradeGoods (e : EconomicEngine) (b : List Building)
    (a : List Agent) (dt : ℚ) : (updateBusinesses e b a dt).tradeGoods = e.tradeGoods := rfl

lemma updateTradeGoods_businesses (e : EconomicEngine) (dt : ℚ) :
    (updateTradeGoods e dt).businesses = e.businesses := rfl

lemma updateTaxation_businesses (e : EconomicEngine) (b : List Building) :
    (updateTaxation e b).businesses = e.businesses := rfl

lemma updateTaxation_tradeGoods (e : EconomicEngine) (b : List Building) :
    (updateTaxation e b).tradeGoods = e.tradeGoods := rfl

lemma updateEconomicIndicators_businesses (e : EconomicEngine) (dt : ℚ) :
    (updateEconomicIndicators e dt).businesses = e.businesses := rfl

lemma updateEconomicIndicators_tradeGoods (e : EconomicEngine) (dt : ℚ) :
    (updateEconomicIndicators e dt).tradeGoods = e.tradeGoods := rfl

lemma updateLoansAndInterest_businesses (e : EconomicEngine) (dt : ℚ) :
    (updateLoansAndInterest e dt).businesses = e.businesses := by
  unfold updateLoansAndInterest
  split <;> rfl

lemma updateLoansAndInterest_tradeGoods (e : EconomicEngine) (dt : ℚ) :
    (updateLoansAndInterest e dt).tradeGoods = e.tradeGoods := by
  unfold updateLoansAndInterest
  split <;> rfl

lemma updateCityRating_businesses (e : EconomicEngine) :
    (updateCityRating e).businesses = e.businesses := rfl

lemma updateCityRating_tradeGoods (e : EconomicEngine) :
    (updateCityRating e).tradeGoods = e.tradeGoods := rfl

/-- The demand of every good after `updateOneTradeGood` is at least 20. -/
lemma updateOneTradeGood_demand_ge (e : EconomicEngine) (g : TradeGood) (r : ℚ) :
    (20 : ℚ) ≤ (updateOneTradeGood e g r).demand := le_max_left _ _

lemma updateOneTradeGood_imported (e : EconomicEngine) (g : TradeGood) (r : ℚ) :
    (updateOneTradeGood e g r).imported = g.imported := rfl

lemma updateOneTradeGood_basePrice (e : EconomicEngine) (g : TradeGood) (r : ℚ) :
    (updateOneTradeGood e g r).basePrice = g.basePrice := rfl

/-- Every imported good with a positive catalog base price contributes a
strictly positive `demand * currentPrice` term to the import value. -/
lemma updateOneTradeGood_import_term_pos (e : EconomicEngine) (g : TradeGood)
    (r : ℚ) (hbp : 1 ≤ g.basePrice) :
    0 < (updateOneTradeGood e g r).demand * (updateOneTradeGood e g r).currentPrice := by
  have hd : (0 : ℚ) < (updateOneTradeGood e g r).demand :=
    lt_of_lt_of_le (by norm_num) (updateOneTradeGood_demand_ge e g r)
  have hform := updateOneTradeGood_currentPrice e g r
  have hm2 : (1/2 : ℚ) ≤ max (1/2) (min 2
      (2 - (updateOneTradeGood e g r).supply /
        max 1 (updateOneTradeGood e g r).demand)) := le_max_left _ _
  have hx : (1/2 : ℚ) ≤ (updateOneTradeGood e g r).basePrice *
      max (1/2) (min 2 (2 - (updateOneTradeGood e g r).supply /
        max 1 (updateOneTradeGood e g r).demand)) := by
    calc (1/2 : ℚ) = 1 * (1/2) := by norm_num
      _ ≤ (updateOneTradeGood e g r).basePrice * _ := by
          refine mul_le_mul ?_ hm2 (by norm_num) ?_
          · rw [updateOneTradeGood_basePrice]; exact hbp
          · rw [updateOneTradeGood_basePrice]; linarith
  have hp : (0 : ℚ) < (updateOneTradeGood e g r).currentPrice := by
    rw [hform]
    have hfl : (1 : ℤ) ≤ jsRound ((updateOneTradeGood e g r).basePrice *
        max (1/2) (min 2 (2 - (updateOneTradeGood e g r).supply /
          max 1 (updateOneTradeGood e g r).demand))) := by
      unfold jsRound
      apply Int.le_floor.mpr
      push_cast
      linarith
    exact_mod_cast lt_of_lt_of_le Int.zero_lt_one hfl
  exact mul_pos hd hp

/-- The tail of the `updateEconomy` pipeline (trade goods through city
rating) does not change the business list. -/
lemma pipelineTail_businesses (e : EconomicEngine) (b : List Building) (dt2 : ℚ) :
    (updateCityRating (updateLoansAndInterest (updateEconomicIndicators
      (updateTaxation (updateTradeGoods e dt2) b) dt2) dt2)).businesses =
        e.businesses := by
  rw [updateCityRating_businesses, updateLoansAndInterest_businesses,
    updateEconomicIndicators_businesses, updateTaxation_businesses,
    updateTradeGoods_businesses]

/-- The stages after `updateTradeGoods` do not change the trade goods. -/
lemma pipelineTail_tradeGoods (e : EconomicEngine) (b : List Building) (dt2 : ℚ) :
    (updateCityRating (updateLoansAndInterest (updateEconomicIndicators
      (updateTaxation (updateTradeGoods e dt2) b) dt2) dt2)).tradeGoods =
        (updateTradeGoods e dt2).tradeGoods := by
  rw [updateCityRating_tradeGoods, updateLoansAndInterest_tradeGoods,
    updateEconomicIndicators_tradeGoods, updateTaxation_tradeGoods]

/-- The empty-world trade balance is strictly negative: all six catalog trade
goods are `imported` with demand floored at 20 and a positive rounded price,
so the import value is positive while the export value is zero. -/
lemma updateEconomy_emptyWorld_tradeBalance_neg (initialData : EconomicData)
    (stream : ℕ → ℚ) (dt : ℚ) :
    (updateEconomy (mkEconomicEngine initialData stream) dt [] []).2.tradeBalance < 0 := by
  show (generateEconomicReport _ [] []).tradeBalance < 0
  unfold generateEconomicReport
  dsimp only
  rw [pipelineTail_tradeGoods]
  have hEg : (updateTradeGoods (updateBusinesses
      (updateMarketConditions (mkEconomicEngine initialData stream) [] []) [] [] dt)
        dt).tradeGoods =
      (initializeTradeGoods.enum.map (fun ig =>
        (ig.2.1, updateOneTradeGood (updateBusinesses
          (updateMarketConditions (mkEconomicEngine initialData stream) [] []) [] [] dt)
            ig.2.2 (stream (0 + ig.1))))) := rfl
  rw [hEg]
  set e2 := updateBusinesses
    (updateMarketConditions (mkEconomicEngine initialData stream) [] []) [] [] dt
    with he2
  simp only [initializeTradeGoods, List.enum, List.enumFrom, List.map]
  simp only [List.sum_cons, List.sum_nil, updateOneTradeGood_imported]
  simp only [if_true, zero_add, add_zero]
  have h1 := updateOneTradeGood_import_term_pos e2
    ⟨"food", "Food Products", "food", 100, 100, 100, 100, 1, true⟩
    (stream 0) (by norm_num)
  have h2 := updateOneTradeGood_import_term_pos e2
    ⟨"materials", "Raw Materials", "raw_materials", 200, 200, 100, 100, 1, true⟩
    (stream 1) (by norm_num)
  have h3 := updateOneTradeGood_import_term_pos e2
    ⟨"manufactured", "Manufactured Goods", "manufactured_goods", 300, 300, 100, 100, 1, true⟩
    (stream 2) (by norm_num)
  have h4 := updateOneTradeGood_import_term_pos e2
    ⟨"luxury", "Luxury Items", "luxury_items", 500, 500, 100, 100, 1, true⟩
    (stream 3) (by norm_num)
  have h5 := updateOneTradeGood_import_term_pos e2
    ⟨"energy", "Energy", "energy", 150, 150, 100, 100, 1, true⟩
    (stream 4) (by norm_num)
  have h6 := updateOneTradeGood_import_term_pos e2
    ⟨"technology", "Technology", "technology", 400, 400, 100, 100, 1, true⟩
    (stream 5) (by norm_num)
  rw [zero_sub]
  exact neg_lt_zero.mpr
    (add_pos h1 (add_pos h2 (add_pos h3 (add_pos h4 (add_pos h5 h6)))))

/-- C7, amended: for every initial `EconomicData` and every random stream,
`updateEconomy` on an empty world (no buildings, no agents, no registered
businesses) returns `gdp = 0` and `unemployment = 0` (all divisions are
guarded by `max 1` denominators or explicit zero-population checks), but the
`tradeBalance` is strictly negative, not 0: all six catalog trade goods are
`imported` with demand floored at 20 and a positive rounded price. -/
theorem updateEconomy_emptyWorld (initialData : EconomicData) (stream : ℕ → ℚ)
    (dt : ℚ) :
    (updateEconomy (mkEconomicEngine initialData stream) dt [] []).2.gdp = 0 ∧
      (updateEconomy (mkEconomicEngine initialData stream) dt [] []).2.unemployment = 0 ∧
      (updateEconomy (mkEconomicEngine initialData stream) dt [] []).2.tradeBalance < 0 := by
  refine ⟨?_, ?_, updateEconomy_emptyWorld_tradeBalance_neg initialData stream dt⟩
  · show (generateEconomicReport _ [] []).gdp = 0
    unfold generateEconomicReport
    dsimp only
    rw [pipelineTail_businesses]
    show ((([] : List Business).map _).sum) * 365 = 0
    simp
  · show (generateEconomicReport _ [] []).unemployment = 0
    unfold generateEconomicReport
    dsimp only
    norm_num

/-- A concrete empty-world engine: wealth distribution (60, 30, 10), constant
random stream 1/2. -/
def c7Engine : EconomicEngine :=
  mkEconomicEngine
    ⟨0, 0, 0, 0, 9, 9, 9, 9, 0, 0, 100, 1, ⟨60, 30, 10⟩,
      ⟨fun _ _ => 100, fun _ _ => 100⟩⟩
    (fun _ => 1/2)

set_option maxRecDepth 4000 in
/-- C7, counterexample: on the concrete empty world `c7Engine`,
`updateEconomy` returns `gdp = 0` and `unemployment = 0` as claimed, but the
`tradeBalance` is strictly negative (every catalog good is imported with
demand at least 20 and a positive price), hence not 0. -/
theorem updateEconomy_emptyWorld_tradeBalance_ne_zero :
    (updateEconomy c7Engine 1 [] []).2.gdp = 0 ∧
      (updateEconomy c7Engine 1 [] []).2.unemployment = 0 ∧
      (updateEconomy c7Engine 1 [] []).2.tradeBalance ≠ 0 :=
  ⟨by with_unfolding_all decide, by with_unfolding_all decide,
    ne_of_lt (updateEconomy_emptyWorld_tradeBalance_neg _ _ 1)⟩

end Econ

namespace Construction

/-- `ConstructionMaterial` (src/src/systems/construction.ts).  `deliveryDate`
is optional (`undefined` until ordered). -/
structure ConstructionMaterial where
  type : String
  required : ℚ
  delivered : ℚ
  cost : ℚ
  supplier : String
  deliveryDate : Option ℚ
  quality : ℚ
  deriving DecidableEq

/-- `ConstructionPhase`. -/
structure ConstructionPhase where
  name : String
  description : String
  duration : ℚ
  startProgress : ℚ
  endProgress : ℚ
  requiredMaterials : List String
  requiredWorkers : ℕ
  isCompleted : Bool
  actualDuration : Option ℚ
  qualityCheck : Bool
  deriving DecidableEq

/-- `ConstructionProject`.  Of the blueprint only `constructionTime` is read
by the update loop, so the blueprint snapshot is represented by that field. -/
structure ConstructionProject where
  id : String
  buildingId : String
  constructionTime : ℚ
  startDate : ℚ
  estimatedCompletion : ℚ
  actualProgress : ℚ
  scheduledProgress : ℚ
  workers : ℕ
  maxWorkers : ℕ
  dailyCost : ℚ
  totalCostPaid : ℚ
  totalCostEstimated : ℚ
  materials : List ConstructionMaterial
  phases : List ConstructionPhase
  currentPhase : ℕ
  isDelayed : Bool
  delayReason : Option String
  weatherImpact : ℚ
  qualityRating : ℚ
  inspectionsPassed : ℕ
  safetyIncidents : ℕ
  deriving DecidableEq

/-- `ConstructionWorker`. -/
structure ConstructionWorker where
  id : String
  name : String
  skillLevel : ℚ
  specialization : String
  efficiency : ℚ
  salary : ℚ
  assignedProjectId : Option String
  availability : Bool
  deriving DecidableEq

/-- The `ConstructionSystem` class state; `Math.random()` is the injected
stream read at `randCounter`. -/
structure ConstructionState where
  projects : List (String × ConstructionProject)
  workers : List ConstructionWorker
  completedProjects : List ConstructionProject
  laborCostMultiplier : ℚ
  materialCostMultiplier : ℚ
  weatherConditions : ℚ
  economicConditions : ℚ
  randStream : ℕ → ℚ
  randCounter : ℕ

/-- `this.projects.get key`. -/
def lookupProj : List (String × ConstructionProject) → String →
    Option ConstructionProject
  | [], _ => none
  | (k, p) :: rest, key => if k = key then some p else lookupProj rest key

/-- Writing the (mutated-in-place) project value back under its key. -/
def setProj (ps : List (String × ConstructionProject)) (key : String)
    (p : ConstructionProject) : List (String × ConstructionProject) :=
  ps.map (fun kp => if kp.1 = key then (key, p) else kp)

/-- `this.projects.delete key`. -/
def removeProj (ps : List (String × ConstructionProject)) (key : String) :
    List (String × ConstructionProject) :=
  ps.filter (fun kp => ¬(kp.1 = key))

/-- `ConstructionSystem.getProjectWorkerEfficiency`: average assigned-worker
efficiency, `0.1` when no workers are assigned. -/
def getProjectWorkerEfficiency (st : ConstructionState) (projectId : String) : ℚ :=
  let projectWorkers := st.workers.filter (fun w => w.assignedProjectId = some projectId)
  if projectWorkers.length = 0 then 1/10
  else ((projectWorkers.map (fun w => w.efficiency)).sum) / (projectWorkers.length : ℚ)

/-- `ConstructionSystem.calculateProgressRate` (lines 442-460):
`(1 / (constructionTime || 30)) × avg worker efficiency × weather × avg
material quality × economic conditions`. -/
def calculateProgressRate (st : ConstructionState) (project : ConstructionProject) : ℚ :=
  let baseRate := 1 / (if project.constructionTime = 0 then 30 else project.constructionTime)
  let baseRate := baseRate * getProjectWorkerEfficiency st project.id
  let baseRate := baseRate * st.weatherConditions
  let averageMaterialQuality :=
    ((project.materials.map (fun m => m.quality)).sum) / (project.materials.length : ℚ)
  let baseRate := baseRate * averageMaterialQuality
  baseRate * st.economicConditions

/-- `ConstructionSystem.checkMaterialAvailability` (lines 432-440): every
required material type of the phase must exist, have a truthy delivery date
that has passed, and be at least 50% delivered. -/
def checkMaterialAvailability (project : ConstructionProject)
    (phase : ConstructionPhase) (now : ℚ) : Bool :=
  phase.requiredMaterials.all (fun materialType =>
    match project.materials.find? (fun m => m.type = materialType) with
    | none => false
    | some material =>
        match material.deliveryDate with
        | none => false
        | some d =>
            decide (d ≠ 0) && decide (d ≤ now) &&
              decide (material.required * (1/2) ≤ material.delivered))

/-- `ConstructionSystem.assignWorkers`: available workers whose
specialization is `general` or string-matches a required material of the
current phase are assigned (up to `min requiredWorkers maxWorkers`). -/
def assignWorkers (st : ConstructionState) (projectId : String) : ConstructionState :=
  match lookupProj st.projects projectId with
  | none => st
  | some project =>
      match project.phases.get? project.currentPhase with
      | none => st
      | some currentPhase =>
          let requiredWorkers := min currentPhase.requiredWorkers project.maxWorkers
          let availableWorkers := st.workers.filter (fun w =>
            w.availability ∧ (w.specialization = "general" ∨
              currentPhase.requiredMaterials.any (fun material =>
                strIncludes w.specialization material ∨
                  strIncludes material w.specialization)))
          let assignedIds : List String :=
            (availableWorkers.take requiredWorkers).map (fun w => w.id)
          let workers2 := st.workers.map (fun w =>
            if w.id ∈ assignedIds then
              { w with availability := false, assignedProjectId := some projectId }
            else w)
          let project2 := { project with
            workers := (availableWorkers.take requiredWorkers).length }
          { st with
            workers := workers2
            projects := setProj st.projects projectId project2 }

/-- `ConstructionSystem.orderMaterials`: each not-yet-delivered required
material of the current phase gets a delivery date `2 + random() * 3` days
from now (one random draw per ordered material). -/
def orderMaterials (st : ConstructionState) (projectId : String) (now : ℚ) :
    ConstructionState :=
  match lookupProj st.projects projectId with
  | none => st
  | some project =>
      match project.phases.get? project.currentPhase with
      | none => st
      | some currentPhase =>
          let res := project.materials.foldl
            (fun (acc : List ConstructionMaterial × ℕ) m =>
              if m.type ∈ currentPhase.requiredMaterials ∧ m.delivered < m.required then
                let r := st.randStream acc.2
                let deliveryTime := 2 + r * 3
                (acc.1 ++ [{ m with
                  deliveryDate := some (now + deliveryTime * 24 * 60 * 60 * 1000) }],
                  acc.2 + 1)
              else (acc.1 ++ [m], acc.2)) ([], st.randCounter)
          { st with
            projects := setProj st.projects projectId { project with materials := res.1 }
            randCounter := res.2 }

/-- `ConstructionSystem.performQualityInspection`. -/
def performQualityInspection (st : ConstructionState)
    (project : ConstructionProject) : ℚ :=
  let workerSkill := getProjectWorkerEfficiency st project.id
  let materialQuality :=
    ((project.materials.map (fun m => m.quality)).sum) / (project.materials.length : ℚ)
  let timePerformance : ℚ :=
    if project.scheduledProgress ≤ project.actualProgress then 1 else 4/5
  (workerSkill + materialQuality + timePerformance) / 3

/-- `ConstructionSystem.completePhase` (lines 471-494): marks the phase
completed, folds a quality inspection into `qualityRating`, and when a next
phase exists advances `currentPhase`, reassigns workers and re-orders
materials.  `key` is the map key the project lives under; the JavaScript
version mutates the shared object, which the model mirrors by writing the
project back before the sub-calls and re-reading it afterwards. -/
def completePhase (st : ConstructionState) (key : String)
    (project : ConstructionProject) (phaseIndex : ℕ) (now : ℚ) :
    ConstructionState × ConstructionProject :=
  match project.phases.get? phaseIndex with
  | none => (st, project)
  | some phase =>
      let project := { project with
        phases := project.phases.enum.map (fun ip =>
          if ip.1 = phaseIndex then
            { ip.2 with
              isCompleted := true
              actualDuration := some (now - project.startDate) }
          else ip.2) }
      let qualityScore := performQualityInspection st project
      let project := { project with
        qualityRating :=
          if phase.qualityCheck then (project.qualityRating + qualityScore) / 2
          else project.qualityRating
        inspectionsPassed :=
          if phase.qualityCheck ∧ 4/5 < qualityScore then project.inspectionsPassed + 1
          else project.inspectionsPassed }
      if phaseIndex < project.phases.length - 1 then
        let project := { project with currentPhase := project.currentPhase + 1 }
        let st := { st with projects := setProj st.projects key project }
        let st := assignWorkers st project.id
        let st := orderMaterials st project.id now
        ((st : ConstructionState), (lookupProj st.projects key).getD project)
      else
        ({ st with projects := setProj st.projects key project }, project)

/-- `ConstructionSystem.completeProject` (lines 504-535): releases every
worker assigned to the project, flips the building to operational with
progress exactly 1, applies the quality-based property-value adjustment,
archives the project and deletes it from the active map. -/
def completeProject (st : ConstructionState) (project : ConstructionProject)
    (building : Building) : ConstructionState × Building :=
  let workers2 := st.workers.map (fun w =>
    if w.assignedProjectId = some project.id then
      { w with availability := true, assignedProjectId := none }
    else w)
  let building := { building with
    status := BuildingStatus.operational
    constructionProgress := 1 }
  let building := { building with
    property_value :=
      if 9/10 < project.qualityRating then building.property_value * (11/10)
      else if project.qualityRating < 3/5 then building.property_value * (9/10)
      else building.property_value }
  let st := { st with
    workers := workers2
    completedProjects := st.completedProjects ++ [project]
    projects := removeProj st.projects project.id }
  (st, building)

/-- `ConstructionSystem.updateQuality`. -/
def updateQuality (st : ConstructionState) (project : ConstructionProject) :
    ConstructionProject :=
  let workerQuality := getProjectWorkerEfficiency st project.id
  let project := { project with
    qualityRating :=
      if st.weatherConditions < 7/10 then project.qualityRating * (499/500)
      else project.qualityRating }
  let project := { project with
    qualityRating :=
      if 0 < project.safetyIncidents then
        project.qualityRating * (19/20) ^ project.safetyIncidents
      else project.qualityRating }
  { project with
    qualityRating :=
      if 4/5 < workerQuality then min 1 (project.qualityRating * (1001/1000))
      else project.qualityRating }

/-- The tagged event variants of `processConstructionEvent`. -/
inductive CEvent
  | weatherDelay
  | materialDelay
  | equipmentBreakdown
  | workerInjury
  | permitDelay
  | designChange
  deriving DecidableEq

/-- The `events` array lookup `events[Math.floor(r * 6)]`; out-of-range
indices (unreachable for `r ∈ [0, 1)`) yield `none`. -/
def eventOfIndex (i : ℤ) : Option CEvent :=
  if i = 0 then some .weatherDelay
  else if i = 1 then some .materialDelay
  else if i = 2 then some .equipmentBreakdown
  else if i = 3 then some .workerInjury
  else if i = 4 then some .permitDelay
  else if i = 5 then some .designChange
  else none

/-- `ConstructionSystem.processConstructionEvent` (lines 576-612). -/
def processConstructionEvent (st : ConstructionState)
    (project : ConstructionProject) : CEvent → ConstructionState × ConstructionProject
  | .weatherDelay =>
      ({ st with weatherConditions := max (3/10) (st.weatherConditions - 1/5) },
        { project with isDelayed := true, delayReason := some "Weather conditions" })
  | .materialDelay =>
      let r := st.randStream st.randCounter
      let st := { st with randCounter := st.randCounter + 1 }
      let idx := (⌊r * (project.materials.length : ℚ)⌋).toNat
      let materials2 := project.materials.enum.map (fun im =>
        if im.1 = idx ∧ jsTruthy im.2.deliveryDate then
          { im.2 with deliveryDate := im.2.deliveryDate.map (fun d =>
              d + 2 * 24 * 60 * 60 * 1000) }
        else im.2)
      let matName :=
        match project.materials.get? idx with
        | some m => m.type
        | none => ""
      (st, { project with
        materials := materials2
        isDelayed := true
        delayReason := some (matName ++ " delivery delay") })
  | .workerInjury =>
      (st, { project with
        safetyIncidents := project.safetyIncidents + 1
        workers := max 1 (project.workers - 1)
        qualityRating := project.qualityRating * (19/20) })
  | .equipmentBreakdown =>
      (st, { project with dailyCost := project.dailyCost * (11/10) })
  | .permitDelay =>
      (st, { project with isDelayed := true, delayReason := some "permit delay" })
  | .designChange =>
      (st, { project with isDelayed := true, delayReason := some "design change" })

/-- `ConstructionSystem.processRandomEvents` (lines 558-574): one draw
decides whether an event fires (`r < dt * 0.001`); a second draw picks the
variant. -/
def processRandomEvents (st : ConstructionState) (project : ConstructionProject)
    (dt : ℚ) : ConstructionState × ConstructionProject :=
  let eventChance := dt * (1/1000)
  let r1 := st.randStream st.randCounter
  let st := { st with randCounter := st.randCounter + 1 }
  if r1 < eventChance then
    let r2 := st.randStream st.randCounter
    let st := { st with randCounter := st.randCounter + 1 }
    match eventOfIndex ⌊r2 * (6 : ℚ)⌋ with
    | some ev => processConstructionEvent st project ev
    | none => (st, project)
  else (st, project)

/-- `ConstructionSystem.updateConstruction` (lines 381-430): scheduled
progress, material check (with early delayed return), progress integration
clamped at 1, cost accrual, phase completion, project completion, quality
update and random events.  `now` models `Date.now()`. -/
def updateConstruction (st : ConstructionState) (building : Building)
    (now dt : ℚ) : ConstructionState × Building :=
  match lookupProj st.projects building.id with
  | none => (st, building)
  | some project =>
      let elapsedTime := now - project.startDate
      let totalDuration := project.estimatedCompletion - project.startDate
      let project := { project with
        scheduledProgress := min 1 (elapsedTime / totalDuration) }
      match project.phases.get? project.currentPhase with
      | none => ({ st with projects := setProj st.projects building.id project }, building)
      | some currentPhase =>
          if ¬checkMaterialAvailability project currentPhase now then
            let project := { project with
              isDelayed := true
              delayReason := some "Material shortage" }
            let building := { building with
              constructionProgress := project.actualProgress }
            ({ st with projects := setProj st.projects building.id project }, building)
          else
            let progressRate := calculateProgressRate st project
            let progressIncrement := progressRate * dt / (24 * 60 * 60)
            let project := { project with
              actualProgress := min 1 (project.actualProgress + progressIncrement) }
            let building := { building with
              constructionProgress := project.actualProgress }
            let project := { project with
              totalCostPaid := project.totalCostPaid +
                project.dailyCost * dt / (24 * 60 * 60) }
            let stp :=
              if currentPhase.endProgress ≤ project.actualProgress ∧
                  ¬currentPhase.isCompleted then
                completePhase { st with
                    projects := setProj st.projects building.id project }
                  building.id project project.currentPhase now
              else
                ({ st with projects := setProj st.projects building.id project },
                  project)
            let st := stp.1
            let project := stp.2
            if 1 ≤ project.actualProgress then
              let stb := completeProject st project building
              let st := stb.1
              let building := stb.2
              let project := updateQuality st project
              let stp2 := processRandomEvents st project dt
              let st := stp2.1
              let project := stp2.2
              ({ st with
                completedProjects := st.completedProjects.dropLast ++ [project] },
                building)
            else
              let project := updateQuality st project
              let stp2 := processRandomEvents st project dt
              let st := stp2.1
              let project := stp2.2
              ({ st with projects := setProj st.projects building.id project }, building)

lemma lookupProj_setProj_self (ps : List (String × ConstructionProject))
    (key : String) (p q : ConstructionProject)
    (h : lookupProj ps key = some q) :
    lookupProj (setProj ps key p) key = some p := by
  induction ps with
  | nil => simp [lookupProj] at h
  | cons kp rest ih =>
      obtain ⟨k0, p0⟩ := kp
      by_cases hk : k0 = key
      · subst hk
        have h1 : setProj ((k0, p0) :: rest) k0 p = (k0, p) :: setProj rest k0 p := by
          unfold setProj
          simp only [List.map]
          congr 1
        rw [h1]
        exact if_pos rfl
      · unfold lookupProj at h
        rw [if_neg hk] at h
        unfold setProj
        simp only [List.map]
        rw [show (if (k0, p0).1 = key then (key, p) else (k0, p0)) = (k0, p0) from
          if_neg hk]
        unfold lookupProj
        rw [if_neg hk]
        exact ih h

/-- C3: If some required material type of the current phase has less than 50%
of its requirement delivered, or a delivery date that has not yet passed,
then `updateConstruction` marks the project delayed and leaves
`actualProgress`, `currentPhase` and the phases untouched — prior progress is
not lost, the phase does not complete, and the building's construction
progress mirrors the unchanged `actualProgress`. -/
theorem updateConstruction_material_shortage_delays
    (st : ConstructionState) (building : Building) (now dt : ℚ)
    (project : ConstructionProject) (phase : ConstructionPhase)
    (hproj : lookupProj st.projects building.id = some project)
    (hphase : project.phases.get? project.currentPhase = some phase)
    (mt : String) (m : ConstructionMaterial)
    (hmt : mt ∈ phase.requiredMaterials)
    (hfind : project.materials.find? (fun mm => mm.type = mt) = some m)
    (hbad : m.delivered < m.required * (1/2) ∨
      ∃ d, m.deliveryDate = some d ∧ now < d) :
    ∃ project2,
      lookupProj (updateConstruction st building now dt).1.projects building.id
          = some project2 ∧
        project2.isDelayed = true ∧
        project2.actualProgress = project.actualProgress ∧
        project2.currentPhase = project.currentPhase ∧
        project2.phases = project.phases ∧
        (updateConstruction st building now dt).2.constructionProgress =
          project.actualProgress := by
  unfold updateConstruction
  rw [hproj]
  dsimp only
  rw [hphase]
  dsimp only
  have hchk : checkMaterialAvailability
      { project with scheduledProgress := min 1 ((now - project.startDate) /
        (project.estimatedCompletion - project.startDate)) } phase now = false := by
    rw [Bool.eq_false_iff]
    intro hall
    unfold checkMaterialAvailability at hall
    rw [List.all_eq_true] at hall
    have hm2 := hall mt hmt
    dsimp only at hm2
    rw [hfind] at hm2
    dsimp only at hm2
    cases hd : m.deliveryDate with
    | none => rw [hd] at hm2; cases hm2
    | some d =>
        rw [hd] at hm2
        dsimp only at hm2
        rw [Bool.and_eq_true, Bool.and_eq_true, decide_eq_true_eq,
          decide_eq_true_eq, decide_eq_true_eq] at hm2
        obtain ⟨⟨_, hdle⟩, hdel⟩ := hm2
        rcases hbad with hlt | ⟨d2, hd2, hnow⟩
        · linarith
        · rw [hd] at hd2
          injection hd2 with h4
          subst h4
          linarith
  rw [if_pos (by rw [hchk]; exact Bool.false_ne_true)]
  exact ⟨_, lookupProj_setProj_self _ _ _ _ hproj, rfl, rfl, rfl, rfl, rfl⟩

/-- A phase requiring concrete (the Foundation phase shape). -/
def w3Phase : ConstructionPhase :=
  ⟨"Foundation", "Site preparation and foundation work", 5, 0, 1/5, ["concrete"],
    4, false, none, true⟩

/-- A concrete material: 0 of 10 delivered, delivery date 500 (not yet
passed at `now = 100`). -/
def w3Material : ConstructionMaterial :=
  ⟨"concrete", 10, 0, 100, "Concrete Supplier", some 500, 1⟩

/-- An active project at 10% progress. -/
def w3Project : ConstructionProject :=
  ⟨"b1", "b1", 24, 0, 100, 1/10, 0, 0, 4, 10, 0, 100, [w3Material], [w3Phase],
    0, false, none, 1, 1, 0, 0⟩

/-- Its building. -/
def w3Building : Building :=
  ⟨"b1", ⟨0, 0, 0⟩, some .residential, .low, 1, .constructing, 1/10, 10, 100⟩

/-- A construction state holding only `w3Project`. -/
def w3State : ConstructionState :=
  ⟨[("b1", w3Project)], [], [], 1, 1, 1, 1, fun _ => 1/2, 0⟩

set_option maxRecDepth 4000 in
/-- C3, witness: at `now = 100` the concrete of `w3Project` has a future
delivery date (500) and 0% delivered, so the update marks the project delayed
and leaves its progress, phase and phases unchanged. -/
theorem updateConstruction_material_shortage_delays_witness :
    (lookupProj w3State.projects w3Building.id = some w3Project) ∧
      ∃ project2,
        lookupProj (updateConstruction w3State w3Building 100 1).1.projects
            w3Building.id = some project2 ∧
          project2.isDelayed = true ∧
          project2.actualProgress = w3Project.actualProgress ∧
          project2.currentPhase = w3Project.currentPhase ∧
          project2.phases = w3Project.phases ∧
          (updateConstruction w3State w3Building 100 1).2.constructionProgress =
            w3Project.actualProgress :=
  ⟨by with_unfolding_all decide,
    updateConstruction_material_shortage_delays w3State w3Building 100 1 w3Project
      w3Phase (by with_unfolding_all decide) (by with_unfolding_all decide)
      "concrete" w3Material (by with_unfolding_all decide)
      (by with_unfolding_all decide) (Or.inl (by norm_num [w3Material]))⟩

lemma lookupProj_removeProj_self (ps : List (String × ConstructionProject))
    (key : String) : lookupProj (removeProj ps key) key = none := by
  induction ps with
  | nil => rfl
  | cons kp rest ih =>
      obtain ⟨k0, p0⟩ := kp
      by_cases hk : k0 = key
      · have h1 : removeProj ((k0, p0) :: rest) key = removeProj rest key := by
          unfold removeProj
          rw [List.filter_cons]
          simp [hk]
        rw [h1]
        exact ih
      · have h1 : removeProj ((k0, p0) :: rest) key =
            (k0, p0) :: removeProj rest key := by
          unfold removeProj
          rw [List.filter_cons]
          simp [hk]
        rw [h1]
        show (if k0 = key then some p0 else lookupProj (removeProj rest key) key) = none
        rw [if_neg hk]
        exact ih

lemma orderMaterials_workers (st : ConstructionState) (pid : String) (now : ℚ) :
    (orderMaterials st pid now).workers = st.workers := by
  unfold orderMaterials
  split
  · rfl
  · split
    · rfl
    · rfl

lemma assignWorkers_workers_length (st : ConstructionState) (pid : String) :
    (assignWorkers st pid).workers.length = st.workers.length := by
  unfold assignWorkers
  split
  · rfl
  · split
    · rfl
    · simp

lemma assignWorkers_keeps_assigned (st : ConstructionState) (pid : String)
    (i : ℕ) (w : ConstructionWorker)
    (h : st.workers.get? i = some w)
    (hw : w.assignedProjectId = some pid) :
    ∃ w2, (assignWorkers st pid).workers.get? i = some w2 ∧
      w2.assignedProjectId = some pid := by
  unfold assignWorkers
  split
  · exact ⟨w, h, hw⟩
  · split
    · exact ⟨w, h, hw⟩
    · dsimp only
      rw [List.get?_map, h, Option.map_some']
      refine ⟨_, rfl, ?_⟩
      split
      · rfl
      · exact hw

lemma orderFold_quality (st : ConstructionState) (currentPhase : ConstructionPhase)
    (now : ℚ) :
    ∀ (ms acc1 : List ConstructionMaterial) (c : ℕ),
      ((ms.foldl (fun (acc : List ConstructionMaterial × ℕ) m =>
          if m.type ∈ currentPhase.requiredMaterials ∧ m.delivered < m.required then
            (acc.1 ++
              [{ m with
                  deliveryDate := some (now + (2 + st.randStream acc.2 * 3) * 24 * 60 * 60 * 1000) }],
              acc.2 + 1)
          else (acc.1 ++ [m], acc.2)) (acc1, c)).1).map (fun m => m.quality) =
        acc1.map (fun m => m.quality) ++ ms.map (fun m => m.quality) := by
  intro ms
  induction ms with
  | nil =>
      intro acc1 c
      simp
  | cons m rest ih =>
      intro acc1 c
      rw [List.foldl_cons]
      split
      · rw [ih]
        simp
      · rw [ih]
        simp

lemma assignWorkers_lookup_self (st : ConstructionState) (pid : String)
    (q : ConstructionProject) (h : lookupProj st.projects pid = some q) :
    ∃ q2, lookupProj (assignWorkers st pid).projects pid = some q2 ∧
      q2.id = q.id ∧ q2.actualProgress = q.actualProgress ∧
      q2.constructionTime = q.constructionTime ∧
      q2.materials.map (fun m => m.quality) = q.materials.map (fun m => m.quality) := by
  unfold assignWorkers
  rw [h]
  dsimp only
  cases hph : q.phases.get? q.currentPhase with
  | none => exact ⟨q, h, rfl, rfl, rfl, rfl⟩
  | some currentPhase =>
      dsimp only
      exact ⟨_, lookupProj_setProj_self _ _ _ _ h, rfl, rfl, rfl, rfl⟩

lemma orderMaterials_lookup_self (st : ConstructionState) (pid : String)
    (now : ℚ) (q : ConstructionProject)
    (h : lookupProj st.projects pid = some q) :
    ∃ q2, lookupProj (orderMaterials st pid now).projects pid = some q2 ∧
      q2.id = q.id ∧ q2.actualProgress = q.actualProgress ∧
      q2.constructionTime = q.constructionTime ∧
      q2.materials.map (fun m => m.quality) = q.materials.map (fun m => m.quality) := by
  unfold orderMaterials
  rw [h]
  dsimp only
  cases hph : q.phases.get? q.currentPhase with
  | none => exact ⟨q, h, rfl, rfl, rfl, rfl⟩
  | some currentPhase =>
      dsimp only
      refine ⟨_, lookupProj_setProj_self _ _ _ _ h, rfl, rfl, rfl, ?_⟩
      have hf := orderFold_quality st currentPhase now q.materials [] st.randCounter
      rw [List.map_nil, List.nil_append] at hf
      exact hf

lemma aw_om_getD_id (st : ConstructionState) (key : String) (now : ℚ)
    (P q0 : ConstructionProject)
    (hq0 : lookupProj st.projects key = some q0) :
    ((lookupProj (orderMaterials (assignWorkers
        { st with projects := setProj st.projects key P } key) key now).projects
        key).getD P).id = P.id := by
  obtain ⟨q2, hq2, hid2, hp2, hc2, hm2⟩ := assignWorkers_lookup_self
    { st with projects := setProj st.projects key P } key P
    (lookupProj_setProj_self st.projects key P q0 hq0)
  obtain ⟨q3, hq3, hid3, hp3, hc3, hm3⟩ := orderMaterials_lookup_self _ key now _ hq2
  rw [hq3, Option.getD_some, hid3, hid2]

lemma aw_om_getD_actualProgress (st : ConstructionState) (key : String)
    (now : ℚ) (P q0 : ConstructionProject)
    (hq0 : lookupProj st.projects key = some q0) :
    ((lookupProj (orderMaterials (assignWorkers
        { st with projects := setProj st.projects key P } key) key now).projects
        key).getD P).actualProgress = P.actualProgress := by
  obtain ⟨q2, hq2, hid2, hp2, hc2, hm2⟩ := assignWorkers_lookup_self
    { st with projects := setProj st.projects key P } key P
    (lookupProj_setProj_self st.projects key P q0 hq0)
  obtain ⟨q3, hq3, hid3, hp3, hc3, hm3⟩ := orderMaterials_lookup_self _ key now _ hq2
  rw [hq3, Option.getD_some, hp3, hp2]

lemma aw_om_getD_constructionTime (st : ConstructionState) (key : String)
    (now : ℚ) (P q0 : ConstructionProject)
    (hq0 : lookupProj st.projects key = some q0) :
    ((lookupProj (orderMaterials (assignWorkers
        { st with projects := setProj st.projects key P } key) key now).projects
        key).getD P).constructionTime = P.constructionTime := by
  obtain ⟨q2, hq2, hid2, hp2, hc2, hm2⟩ := assignWorkers_lookup_self
    { st with projects := setProj st.projects key P } key P
    (lookupProj_setProj_self st.projects key P q0 hq0)
  obtain ⟨q3, hq3, hid3, hp3, hc3, hm3⟩ := orderMaterials_lookup_self _ key now _ hq2
  rw [hq3, Option.getD_some, hc3, hc2]

lemma aw_om_getD_quality (st : ConstructionState) (key : String)
    (now : ℚ) (P q0 : ConstructionProject)
    (hq0 : lookupProj st.projects key = some q0) :
    ((lookupProj (orderMaterials (assignWorkers
        { st with projects := setProj st.projects key P } key) key now).projects
        key).getD P).materials.map (fun m => m.quality) =
      P.materials.map (fun m => m.quality) := by
  obtain ⟨q2, hq2, hid2, hp2, hc2, hm2⟩ := assignWorkers_lookup_self
    { st with projects := setProj st.projects key P } key P
    (lookupProj_setProj_self st.projects key P q0 hq0)
  obtain ⟨q3, hq3, hid3, hp3, hc3, hm3⟩ := orderMaterials_lookup_self _ key now _ hq2
  rw [hq3, Option.getD_some, hm3, hm2]

lemma aw_om_lookup_exists (st : ConstructionState) (key : String)
    (now : ℚ) (P q0 : ConstructionProject)
    (hq0 : lookupProj st.projects key = some q0) :
    ∃ qx, lookupProj (orderMaterials (assignWorkers
        { st with projects := setProj st.projects key P } key) key now).projects
        key = some qx := by
  obtain ⟨q2, hq2, hid2, hp2, hc2, hm2⟩ := assignWorkers_lookup_self
    { st with projects := setProj st.projects key P } key P
    (lookupProj_setProj_self st.projects key P q0 hq0)
  obtain ⟨q3, hq3, hid3, hp3, hc3, hm3⟩ := orderMaterials_lookup_self _ key now _ hq2
  exact ⟨q3, hq3⟩

lemma aw_om_workers_length (st : ConstructionState) (key : String) (now : ℚ)
    (P : ConstructionProject) :
    (orderMaterials (assignWorkers
        { st with projects := setProj st.projects key P } key) key now).workers.length
      = st.workers.length := by
  rw [orderMaterials_workers, assignWorkers_workers_length]

lemma aw_om_keeps_assigned (st : ConstructionState) (key : String) (now : ℚ)
    (P : ConstructionProject) (j : ℕ) (w : ConstructionWorker)
    (h : st.workers.get? j = some w)
    (hw : w.assignedProjectId = some key) :
    ∃ w2, (orderMaterials (assignWorkers
        { st with projects := setProj st.projects key P } key) key now).workers.get? j
          = some w2 ∧ w2.assignedProjectId = some key := by
  rw [orderMaterials_workers]
  exact assignWorkers_keeps_assigned
    { st with projects := setProj st.projects key P } key j w h hw

lemma completePhase_spec (st : ConstructionState) (key : String)
    (p : ConstructionProject) (i : ℕ) (now : ℚ)
    (hkey : p.id = key) (q0 : ConstructionProject)
    (hq0 : lookupProj st.projects key = some q0) :
    (completePhase st key p i now).2.id = key ∧
      (completePhase st key p i now).2.actualProgress = p.actualProgress ∧
      (completePhase st key p i now).1.workers.length = st.workers.length ∧
      (∀ j w, st.workers.get? j = some w →
        w.assignedProjectId = some key →
          ∃ w2, (completePhase st key p i now).1.workers.get? j = some w2 ∧
            w2.assignedProjectId = some key) := by
  unfold completePhase
  split
  · exact ⟨hkey, rfl, rfl, fun j w hj hw => ⟨w, hj, hw⟩⟩
  · dsimp only
    simp only [hkey]
    split
    · refine ⟨?_, ?_, ?_, ?_⟩
      · first
        | exact aw_om_getD_id st key now _ q0 hq0
        | exact (aw_om_getD_id st key now _ q0 hq0).trans hkey
      · exact aw_om_getD_actualProgress st key now _ q0 hq0
      · exact aw_om_workers_length st key now _
      · intro j w hj hw
        exact aw_om_keeps_assigned st key now _ j w hj hw
    · exact ⟨by first | rfl | exact hkey, rfl, rfl, fun j w hj hw => ⟨w, hj, hw⟩⟩

lemma completeProject_projects (st : ConstructionState) (p : ConstructionProject)
    (b : Building) :
    (completeProject st p b).1.projects = removeProj st.projects p.id := rfl

lemma completeProject_workers_length (st : ConstructionState)
    (p : ConstructionProject) (b : Building) :
    (completeProject st p b).1.workers.length = st.workers.length := by
  unfold completeProject
  dsimp only
  exact List.length_map _ _

lemma completeProject_workers_not_assigned (st : ConstructionState)
    (p : ConstructionProject) (b : Building) :
    ∀ w ∈ (completeProject st p b).1.workers, w.assignedProjectId ≠ some p.id := by
  intro w hw
  unfold completeProject at hw
  dsimp only at hw
  rw [List.mem_map] at hw
  obtain ⟨w0, _, hrel⟩ := hw
  subst hrel
  split
  · simp
  · next hne => exact hne

lemma completeProject_releases (st : ConstructionState) (p : ConstructionProject)
    (b : Building) (j : ℕ) (w : ConstructionWorker)
    (hj : st.workers.get? j = some w)
    (hw : w.assignedProjectId = some p.id) :
    ∃ w2, (completeProject st p b).1.workers.get? j = some w2 ∧
      w2.availability = true ∧ w2.assignedProjectId = none := by
  unfold completeProject
  dsimp only
  rw [List.get?_map, hj, Option.map_some', if_pos hw]
  exact ⟨_, rfl, rfl, rfl⟩

lemma processRandomEvents_projects (st : ConstructionState)
    (p : ConstructionProject) (dt : ℚ) :
    (processRandomEvents st p dt).1.projects = st.projects := by
  unfold processRandomEvents
  dsimp only
  split
  · split
    · rename_i ev heq
      cases ev <;> rfl
    · rfl
  · rfl

lemma processRandomEvents_workers (st : ConstructionState)
    (p : ConstructionProject) (dt : ℚ) :
    (processRandomEvents st p dt).1.workers = st.workers := by
  unfold processRandomEvents
  dsimp only
  split
  · split
    · rename_i ev heq
      cases ev <;> rfl
    · rfl
  · rfl

lemma completionBranch_spec (st0 stA : ConstructionState) (PA : ConstructionProject)
    (building : Building) (dt : ℚ)
    (stB : ConstructionState × Building)
    (stC : ConstructionState × ConstructionProject)
    (hB : stB = completeProject stA PA building)
    (hC : stC = processRandomEvents stB.1 (updateQuality stB.1 PA) dt)
    (hida : PA.id = building.id)
    (hlen : stA.workers.length = st0.workers.length)
    (hkeep : ∀ j w, st0.workers.get? j = some w →
      w.assignedProjectId = some building.id →
        ∃ w2, stA.workers.get? j = some w2 ∧
          w2.assignedProjectId = some building.id) :
    stB.2.status = BuildingStatus.operational ∧
    stB.2.constructionProgress = 1 ∧
    lookupProj stC.1.projects building.id = none ∧
    (∀ w ∈ stC.1.workers, w.assignedProjectId ≠ some building.id) ∧
    stC.1.workers.length = st0.workers.length ∧
    (∀ j w, st0.workers.get? j = some w →
      w.assignedProjectId = some building.id →
        ∃ w2, stC.1.workers.get? j = some w2 ∧
          w2.availability = true ∧ w2.assignedProjectId = none) := by
  subst hB
  subst hC
  refine ⟨rfl, rfl, ?_, ?_, ?_, ?_⟩
  · rw [processRandomEvents_projects, completeProject_projects, hida]
    exact lookupProj_removeProj_self _ _
  · rw [processRandomEvents_workers]
    intro w hw
    have h4 := completeProject_workers_not_assigned _ _ _ w hw
    rw [hida] at h4
    exact h4
  · rw [processRandomEvents_workers, completeProject_workers_length]
    exact hlen
  · intro j w hj hw
    obtain ⟨w1, hw1, hw1a⟩ := hkeep j w hj hw
    rw [processRandomEvents_workers]
    exact completeProject_releases _ _ _ j w1 hw1 (by rw [hida]; exact hw1a)

/-- C4: when a project tracked under the building's id passes the material
check and its progress increment carries `actualProgress` to `1`,
`updateConstruction` flips the building to `operational` with
`constructionProgress` exactly `1`, removes the project from the active
map, and releases every worker assigned to the project (availability
`true`, `assignedProjectId` cleared), preserving the worker count. -/
theorem updateConstruction_completion_releases
    (st : ConstructionState) (building : Building) (now dt : ℚ)
    (project : ConstructionProject) (currentPhase : ConstructionPhase)
    (hproj : lookupProj st.projects building.id = some project)
    (hid : project.id = building.id)
    (hphase : project.phases.get? project.currentPhase = some currentPhase)
    (hmat : checkMaterialAvailability project currentPhase now = true)
    (hdone : 1 ≤ project.actualProgress +
      calculateProgressRate st project * dt / (24 * 60 * 60)) :
    (updateConstruction st building now dt).2.status = BuildingStatus.operational ∧
    (updateConstruction st building now dt).2.constructionProgress = 1 ∧
    lookupProj (updateConstruction st building now dt).1.projects building.id = none ∧
    (∀ w ∈ (updateConstruction st building now dt).1.workers,
      w.assignedProjectId ≠ some project.id) ∧
    (updateConstruction st building now dt).1.workers.length = st.workers.length ∧
    (∀ j w, st.workers.get? j = some w →
      w.assignedProjectId = some project.id →
        ∃ w2, (updateConstruction st building now dt).1.workers.get? j = some w2 ∧
          w2.availability = true ∧ w2.assignedProjectId = none) := by
  simp only [hid]
  unfold updateConstruction
  rw [hproj]
  dsimp only
  rw [hphase]
  dsimp only
  split
  · next hc => exact absurd hmat hc
  · next hc =>
      split
      · split
        · next hdc =>
            dsimp only
            refine completionBranch_spec st _ _ building dt _ _ rfl rfl ?_ ?_ ?_
            · exact (completePhase_spec _ _ _ _ _ (by exact hid) _
                (by exact lookupProj_setProj_self _ _ _ _ hproj)).1
            · exact (completePhase_spec _ _ _ _ _ (by exact hid) _
                (by exact lookupProj_setProj_self _ _ _ _ hproj)).2.2.1
            · exact fun j w hj hw =>
                (completePhase_spec _ _ _ _ _ (by exact hid) _
                  (by exact lookupProj_setProj_self _ _ _ _ hproj)).2.2.2 j w
                  (by exact hj) (by exact hw)
        · next hdc =>
            refine absurd ?_ hdc
            rw [(completePhase_spec _ _ _ _ _ (by exact hid) _
              (by exact lookupProj_setProj_self _ _ _ _ hproj)).2.1]
            exact le_min le_rfl hdone
      · split
        · next hdc =>
            dsimp only
            refine completionBranch_spec st _ _ building dt _ _ rfl rfl
              (by exact hid) (by exact rfl) ?_
            exact fun j w hj hw => ⟨w, by exact hj, hw⟩
        · next hdc => exact absurd (le_min le_rfl hdone) hdc

/-- C4 witness data: a single phase covering the whole build, with its one
material fully delivered in the past. -/
def w4Phase : ConstructionPhase :=
  ⟨"Construction", "Full build", 5, 0, 1, ["concrete"], 1, false, none, false⟩

/-- C4 witness data: 10 of 10 units delivered on day 50. -/
def w4Material : ConstructionMaterial :=
  ⟨"concrete", 10, 10, 100, "Concrete Supplier", some 50, 1⟩

/-- C4 witness data: a project at 50% whose next increment reaches 100%. -/
def w4Project : ConstructionProject :=
  ⟨"b4", "b4", 1, 0, 100, 1/2, 0, 1, 10, 0, 0, 100, [w4Material], [w4Phase],
    0, false, none, 1, 1, 0, 0⟩

/-- C4 witness data: the worker assigned to `w4Project`. -/
def w4Worker : ConstructionWorker :=
  ⟨"w1", "Worker One", 1, "general", 900, 30, some "b4", false⟩

/-- C4 witness data: the building under construction. -/
def w4Building : Building :=
  ⟨"b4", ⟨0, 0, 0⟩, some .residential, .low, 1, .constructing, 1/2, 10, 100⟩

/-- C4 witness data: state with boosted weather/economy multipliers so one
second of delta time completes the remaining 50%. -/
def w4State : ConstructionState :=
  ⟨[("b4", w4Project)], [w4Worker], [], 1, 1, 12, 8, fun _ => 1/2, 0⟩

set_option maxRecDepth 4000 in
/-- C4, witness: with `w4Worker`'s efficiency 900 and multipliers 12 and 8
the progress rate is 86400 per day, so `dt = 1` second pushes the project
from 50% past 100%: the building flips to operational at progress 1, the
project leaves the map and the worker is released. -/
theorem updateConstruction_completion_releases_witness :
    (1 ≤ w4Project.actualProgress +
        calculateProgressRate w4State w4Project * 1 / (24 * 60 * 60)) ∧
      (updateConstruction w4State w4Building 100 1).2.status =
          BuildingStatus.operational ∧
        (updateConstruction w4State w4Building 100 1).2.constructionProgress = 1 ∧
          lookupProj (updateConstruction w4State w4Building 100 1).1.projects
              w4Building.id = none ∧
            (∀ w ∈ (updateConstruction w4State w4Building 100 1).1.workers,
                w.assignedProjectId ≠ some w4Project.id) ∧
              (updateConstruction w4State w4Building 100 1).1.workers.length =
                  w4State.workers.length ∧
                (∀ j w, w4State.workers.get? j = some w →
                  w.assignedProjectId = some w4Project.id →
                    ∃ w2, (updateConstruction w4State w4Building
                        100 1).1.workers.get? j = some w2 ∧
                      w2.availability = true ∧ w2.assignedProjectId = none) :=
  ⟨by with_unfolding_all decide,
    updateConstruction_completion_releases w4State w4Building 100 1 w4Project
      w4Phase (by with_unfolding_all decide) (by with_unfolding_all decide)
      (by with_unfolding_all decide) (by with_unfolding_all decide)
      (by with_unfolding_all decide)⟩

/-- The ambient-state invariant used for the progress-monotonicity claim:
the weather and economy multipliers and every worker efficiency are
non-negative (the game initialises them positive and never drives them
below `0`). -/
def GoodCState (st : ConstructionState) : Prop :=
  0 ≤ st.weatherConditions ∧ 0 ≤ st.economicConditions ∧
    ∀ w ∈ st.workers, 0 ≤ w.efficiency

instance (st : ConstructionState) : Decidable (GoodCState st) := by
  unfold GoodCState
  infer_instance

lemma efficiency_all_map (l : List ConstructionWorker)
    (f : ConstructionWorker → ConstructionWorker)
    (hf : ∀ w, (f w).efficiency = w.efficiency)
    (h : ∀ w ∈ l, 0 ≤ w.efficiency) : ∀ w ∈ l.map f, 0 ≤ w.efficiency := by
  intro w hw
  rw [List.mem_map] at hw
  obtain ⟨w0, hw0, hrfl⟩ := hw
  rw [← hrfl, hf]
  exact h w0 hw0

lemma GoodCState_assignWorkers (st : ConstructionState) (pid : String)
    (h : GoodCState st) : GoodCState (assignWorkers st pid) := by
  unfold assignWorkers
  split
  · exact h
  · split
    · exact h
    · refine ⟨h.1, h.2.1, ?_⟩
      dsimp only
      exact efficiency_all_map _ _ (fun w => by split <;> rfl) h.2.2

lemma GoodCState_orderMaterials (st : ConstructionState) (pid : String)
    (now : ℚ) (h : GoodCState st) : GoodCState (orderMaterials st pid now) := by
  unfold orderMaterials
  split
  · exact h
  · split
    · exact h
    · exact h

lemma GoodCState_completePhase (st : ConstructionState) (key : String)
    (p : ConstructionProject) (i : ℕ) (now : ℚ)
    (h : GoodCState st) : GoodCState (completePhase st key p i now).1 := by
  unfold completePhase
  split
  · exact h
  · dsimp only
    split
    · exact GoodCState_orderMaterials _ _ _
        (GoodCState_assignWorkers _ _ (by exact h))
    · exact h

lemma GoodCState_completeProject (st : ConstructionState)
    (p : ConstructionProject) (b : Building)
    (h : GoodCState st) : GoodCState (completeProject st p b).1 := by
  unfold completeProject
  refine ⟨h.1, h.2.1, ?_⟩
  dsimp only
  exact efficiency_all_map _ _ (fun w => by split <;> rfl) h.2.2

lemma GoodCState_processRandomEvents (st : ConstructionState)
    (p : ConstructionProject) (dt : ℚ)
    (h : GoodCState st) : GoodCState (processRandomEvents st p dt).1 := by
  unfold processRandomEvents
  dsimp only
  split
  · split
    · rename_i ev heq
      cases ev
      case weatherDelay =>
          exact ⟨le_trans (by norm_num) (le_max_left _ _), h.2.1, h.2.2⟩
      all_goals exact h
    · exact h
  · exact h

lemma map_quality_enum_map (l : List ConstructionMaterial)
    (f : ℕ × ConstructionMaterial → ConstructionMaterial)
    (hf : ∀ im, (f im).quality = im.2.quality) :
    (l.enum.map f).map (fun m => m.quality) = l.map (fun m => m.quality) := by
  rw [List.map_map]
  have h1 : ((fun m : ConstructionMaterial => m.quality) ∘ f) =
      fun im : ℕ × ConstructionMaterial => im.2.quality := funext hf
  rw [h1]
  have h2 : (fun im : ℕ × ConstructionMaterial => im.2.quality) =
      (fun m : ConstructionMaterial => m.quality) ∘ Prod.snd := rfl
  rw [h2, ← List.map_map, List.enum_map_snd]

lemma processConstructionEvent_proj (st : ConstructionState)
    (p : ConstructionProject) (ev : CEvent) :
    (processConstructionEvent st p ev).2.id = p.id ∧
    (processConstructionEvent st p ev).2.actualProgress = p.actualProgress ∧
    (processConstructionEvent st p ev).2.constructionTime = p.constructionTime ∧
    (processConstructionEvent st p ev).2.materials.map (fun m => m.quality) =
      p.materials.map (fun m => m.quality) := by
  cases ev
  case materialDelay =>
      refine ⟨rfl, rfl, rfl, ?_⟩
      exact map_quality_enum_map _ _ (fun im => by dsimp only; split <;> rfl)
  all_goals exact ⟨rfl, rfl, rfl, rfl⟩

lemma processRandomEvents_proj (st : ConstructionState)
    (p : ConstructionProject) (dt : ℚ) :
    (processRandomEvents st p dt).2.id = p.id ∧
    (processRandomEvents st p dt).2.actualProgress = p.actualProgress ∧
    (processRandomEvents st p dt).2.constructionTime = p.constructionTime ∧
    (processRandomEvents st p dt).2.materials.map (fun m => m.quality) =
      p.materials.map (fun m => m.quality) := by
  unfold processRandomEvents
  dsimp only
  split
  · split
    · rename_i ev heq
      exact processConstructionEvent_proj _ _ ev
    · exact ⟨rfl, rfl, rfl, rfl⟩
  · exact ⟨rfl, rfl, rfl, rfl⟩

lemma updateQuality_id (st : ConstructionState) (p : ConstructionProject) :
    (updateQuality st p).id = p.id := rfl

lemma updateQuality_actualProgress (st : ConstructionState)
    (p : ConstructionProject) :
    (updateQuality st p).actualProgress = p.actualProgress := rfl

lemma updateQuality_constructionTime (st : ConstructionState)
    (p : ConstructionProject) :
    (updateQuality st p).constructionTime = p.constructionTime := rfl

lemma updateQuality_materials (st : ConstructionState) (p : ConstructionProject) :
    (updateQuality st p).materials = p.materials := rfl

lemma quality_nonneg_of_map_eq (l1 l2 : List ConstructionMaterial)
    (hm : l1.map (fun m => m.quality) = l2.map (fun m => m.quality))
    (h : ∀ m ∈ l2, 0 ≤ m.quality) : ∀ m ∈ l1, 0 ≤ m.quality := by
  intro m hm1
  have hmem : m.quality ∈ l1.map (fun m => m.quality) :=
    List.mem_map_of_mem _ hm1
  rw [hm, List.mem_map] at hmem
  obtain ⟨m2, hm2, he⟩ := hmem
  rw [← he]
  exact h m2 hm2

lemma calculateProgressRate_nonneg (st : ConstructionState)
    (p : ConstructionProject)
    (hw : 0 ≤ st.weatherConditions) (he : 0 ≤ st.economicConditions)
    (heff : ∀ w ∈ st.workers, 0 ≤ w.efficiency)
    (hct : 0 ≤ p.constructionTime)
    (hmq : ∀ m ∈ p.materials, 0 ≤ m.quality) :
    0 ≤ calculateProgressRate st p := by
  unfold calculateProgressRate
  dsimp only
  refine mul_nonneg (mul_nonneg (mul_nonneg (mul_nonneg ?_ ?_) hw) ?_) he
  · split
    · norm_num
    · exact one_div_nonneg.mpr hct
  · unfold getProjectWorkerEfficiency
    dsimp only
    split
    · norm_num
    · refine div_nonneg (List.sum_nonneg ?_) (Nat.cast_nonneg _)
      intro x hx
      rw [List.mem_map] at hx
      obtain ⟨w, hw1, hrfl⟩ := hx
      rw [← hrfl]
      exact heff w (List.mem_of_mem_filter hw1)
  · refine div_nonneg (List.sum_nonneg ?_) (Nat.cast_nonneg _)
    intro x hx
    rw [List.mem_map] at hx
    obtain ⟨m, hm1, hrfl⟩ := hx
    rw [← hrfl]
    exact hmq m hm1

lemma completePhase_spec2 (st : ConstructionState) (key : String)
    (p : ConstructionProject) (i : ℕ) (now : ℚ)
    (hkey : p.id = key) (q0 : ConstructionProject)
    (hq0 : lookupProj st.projects key = some q0) :
    (completePhase st key p i now).2.constructionTime = p.constructionTime ∧
      ((completePhase st key p i now).2.materials.map (fun m => m.quality) =
        p.materials.map (fun m => m.quality)) ∧
      ∃ qx, lookupProj (completePhase st key p i now).1.projects key = some qx := by
  unfold completePhase
  split
  · exact ⟨rfl, rfl, q0, hq0⟩
  · dsimp only
    simp only [hkey]
    split
    · refine ⟨?_, ?_, ?_⟩
      · exact aw_om_getD_constructionTime st key now _ q0 hq0
      · exact aw_om_getD_quality st key now _ q0 hq0
      · exact aw_om_lookup_exists st key now _ q0 hq0
    · exact ⟨rfl, rfl, _, lookupProj_setProj_self _ _ _ _ hq0⟩

lemma updateConstruction_progress_step (st : ConstructionState) (b : Building)
    (now dt : ℚ) (q : ConstructionProject)
    (hdt : 0 ≤ dt)
    (hq : lookupProj st.projects b.id = some q)
    (hgood : GoodCState st)
    (hqid : q.id = b.id) (hle : q.actualProgress ≤ 1)
    (hct : 0 ≤ q.constructionTime)
    (hmq : ∀ m ∈ q.materials, 0 ≤ m.quality) :
    GoodCState (updateConstruction st b now dt).1 ∧
      (lookupProj (updateConstruction st b now dt).1.projects b.id = none ∨
        ∃ q2, lookupProj (updateConstruction st b now dt).1.projects b.id
            = some q2 ∧
          q.actualProgress ≤ q2.actualProgress ∧ q2.actualProgress ≤ 1 ∧
          q2.id = b.id ∧ 0 ≤ q2.constructionTime ∧
          ∀ m ∈ q2.materials, 0 ≤ m.quality) := by
  have hrate : 0 ≤ calculateProgressRate st q :=
    calculateProgressRate_nonneg st q hgood.1 hgood.2.1 hgood.2.2 hct hmq
  have hinc : 0 ≤ calculateProgressRate st q * dt / (24 * 60 * 60) :=
    div_nonneg (mul_nonneg hrate hdt) (by norm_num)
  unfold updateConstruction
  rw [hq]
  dsimp only
  split
  · exact ⟨hgood, Or.inr ⟨_, lookupProj_setProj_self _ _ _ _ hq, le_refl _,
      hle, hqid, hct, hmq⟩⟩
  · split
    · exact ⟨hgood, Or.inr ⟨_, lookupProj_setProj_self _ _ _ _ hq, le_refl _,
        hle, hqid, hct, hmq⟩⟩
    · split
      · split
        · constructor
          · exact GoodCState_processRandomEvents _ _ _
              (GoodCState_completeProject _ _ _
                (GoodCState_completePhase _ _ _ _ _ (by exact hgood)))
          · refine Or.inl ?_
            dsimp only
            rw [processRandomEvents_projects, completeProject_projects,
              (completePhase_spec _ _ _ _ _ (by exact hqid) _
                (by exact lookupProj_setProj_self _ _ _ _ hq)).1]
            exact lookupProj_removeProj_self _ _
        · constructor
          · exact GoodCState_processRandomEvents _ _ _
              (GoodCState_completePhase _ _ _ _ _ (by exact hgood))
          · refine Or.inr ⟨_, lookupProj_setProj_self _ _ _ _
              (by rw [processRandomEvents_projects]
                  exact ((completePhase_spec2 _ _ _ _ _ (by exact hqid) _
                    (by exact lookupProj_setProj_self _ _ _ _ hq)).2.2).choose_spec),
              ?_, ?_, ?_, ?_, ?_⟩
            · rw [(processRandomEvents_proj _ _ _).2.1, updateQuality_actualProgress,
                (completePhase_spec _ _ _ _ _ (by exact hqid) _
                  (by exact lookupProj_setProj_self _ _ _ _ hq)).2.1]
              exact le_min hle (le_add_of_nonneg_right hinc)
            · rw [(processRandomEvents_proj _ _ _).2.1, updateQuality_actualProgress,
                (completePhase_spec _ _ _ _ _ (by exact hqid) _
                  (by exact lookupProj_setProj_self _ _ _ _ hq)).2.1]
              exact min_le_left _ _
            · rw [(processRandomEvents_proj _ _ _).1, updateQuality_id]
              exact (completePhase_spec _ _ _ _ _ (by exact hqid) _
                (by exact lookupProj_setProj_self _ _ _ _ hq)).1
            · rw [(processRandomEvents_proj _ _ _).2.2.1, updateQuality_constructionTime,
                (completePhase_spec2 _ _ _ _ _ (by exact hqid) _
                  (by exact lookupProj_setProj_self _ _ _ _ hq)).1]
              exact hct
            · refine quality_nonneg_of_map_eq _ _ ?_ hmq
              rw [(processRandomEvents_proj _ _ _).2.2.2, updateQuality_materials,
                (completePhase_spec2 _ _ _ _ _ (by exact hqid) _
                  (by exact lookupProj_setProj_self _ _ _ _ hq)).2.1]
      · split
        · constructor
          · exact GoodCState_processRandomEvents _ _ _
              (GoodCState_completeProject _ _ _ (by exact hgood))
          · refine Or.inl ?_
            dsimp only
            rw [processRandomEvents_projects, completeProject_projects]
            dsimp only
            rw [hqid]
            exact lookupProj_removeProj_self _ _
        · constructor
          · exact GoodCState_processRandomEvents _ _ _ (by exact hgood)
          · refine Or.inr ⟨_, lookupProj_setProj_self _ _ _ _
              (by rw [processRandomEvents_projects]
                  exact lookupProj_setProj_self _ _ _ _ hq),
              ?_, ?_, ?_, ?_, ?_⟩
            · rw [(processRandomEvents_proj _ _ _).2.1, updateQuality_actualProgress]
              exact le_min hle (le_add_of_nonneg_right hinc)
            · rw [(processRandomEvents_proj _ _ _).2.1, updateQuality_actualProgress]
              exact min_le_left _ _
            · rw [(processRandomEvents_proj _ _ _).1, updateQuality_id]
              exact hqid
            · rw [(processRandomEvents_proj _ _ _).2.2.1, updateQuality_constructionTime]
              exact hct
            · refine quality_nonneg_of_map_eq _ _ ?_ hmq
              rw [(processRandomEvents_proj _ _ _).2.2.2, updateQuality_materials]

/-- The game loop: one `updateConstruction` call per frame, threading the
returned state and building through a list of `(now, deltaTime)` frames. -/
def runConstructionUpdates : ConstructionState × Building → List (ℚ × ℚ) →
    ConstructionState × Building
  | sb, [] => sb
  | sb, step :: rest =>
      runConstructionUpdates (updateConstruction sb.1 sb.2 step.1 step.2) rest

lemma updateConstruction_building_id (st : ConstructionState) (b : Building)
    (now dt : ℚ) : (updateConstruction st b now dt).2.id = b.id := by
  unfold updateConstruction
  split
  · rfl
  · dsimp only
    split
    · rfl
    · split
      · rfl
      · split
        · split
          · rfl
          · rfl
        · split
          · rfl
          · rfl

lemma updateConstruction_lookup_none (st : ConstructionState) (b : Building)
    (now dt : ℚ) (h : lookupProj st.projects b.id = none) :
    updateConstruction st b now dt = (st, b) := by
  unfold updateConstruction
  rw [h]

lemma runUpdates_lookup_none :
    ∀ (rest : List (ℚ × ℚ)) (sb : ConstructionState × Building),
      lookupProj sb.1.projects sb.2.id = none →
        runConstructionUpdates sb rest = sb := by
  intro rest
  induction rest with
  | nil => intro sb h; rfl
  | cons s r ih =>
      intro sb h
      rw [runConstructionUpdates, updateConstruction_lookup_none _ _ _ _ h]
      exact ih (sb.1, sb.2) h

lemma runUpdates_progress_invariant :
    ∀ (steps : List (ℚ × ℚ)) (st : ConstructionState) (b : Building)
      (q : ConstructionProject),
      (∀ s ∈ steps, 0 ≤ s.2) →
      lookupProj st.projects b.id = some q →
      GoodCState st → q.id = b.id → q.actualProgress ≤ 1 →
      0 ≤ q.constructionTime → (∀ m ∈ q.materials, 0 ≤ m.quality) →
      (lookupProj (runConstructionUpdates (st, b) steps).1.projects b.id = none ∨
        ∃ q2, lookupProj (runConstructionUpdates (st, b) steps).1.projects b.id
            = some q2 ∧
          q.actualProgress ≤ q2.actualProgress ∧ q2.actualProgress ≤ 1 ∧
          q2.id = b.id ∧ 0 ≤ q2.constructionTime ∧
          ∀ m ∈ q2.materials, 0 ≤ m.quality) := by
  intro steps
  induction steps with
  | nil =>
      intro st b q _ hq _ hqid hle hct hmq
      exact Or.inr ⟨q, hq, le_refl _, hle, hqid, hct, hmq⟩
  | cons step rest ih =>
      intro st b q hsteps hq hgood hqid hle hct hmq
      rw [runConstructionUpdates]
      obtain ⟨hgood2, hstep⟩ := updateConstruction_progress_step st b step.1 step.2
        q (hsteps step (List.mem_cons_self _ _)) hq hgood hqid hle hct hmq
      have hb := updateConstruction_building_id st b step.1 step.2
      rcases hstep with hnone | ⟨q2, hq2, hmono, hle2, hid2, hct2, hmq2⟩
      · have hnone2 : lookupProj (updateConstruction st b step.1 step.2).1.projects
            (updateConstruction st b step.1 step.2).2.id = none := by
          rw [hb]; exact hnone
        rw [runUpdates_lookup_none rest _ hnone2]
        exact Or.inl hnone
      · have hq2b : lookupProj (updateConstruction st b step.1 step.2).1.projects
            (updateConstruction st b step.1 step.2).2.id = some q2 := by
          rw [hb]; exact hq2
        have hid2b : q2.id = (updateConstruction st b step.1 step.2).2.id := by
          rw [hb]; exact hid2
        have hrest := ih (updateConstruction st b step.1 step.2).1
          (updateConstruction st b step.1 step.2).2 q2
          (fun s hs => hsteps s (List.mem_cons_of_mem _ hs))
          hq2b hgood2 hid2b hle2 hct2 hmq2
        rw [hb] at hrest
        rcases hrest with h3 | ⟨q3, hq3, hm3, hl3, hi3, hc3, hm3q⟩
        · exact Or.inl h3
        · exact Or.inr ⟨q3, hq3, le_trans hmono hm3, hl3, hi3, hc3, hm3q⟩

/-- C5: over every frame sequence with non-negative delta times, starting
from a state whose multipliers and worker efficiencies are non-negative, a
tracked project's `actualProgress` is monotonically non-decreasing and
never exceeds `1` for as long as the project stays in the active map (it
leaves the map exactly when it completes). -/
theorem runConstructionUpdates_progress_monotone
    (steps : List (ℚ × ℚ)) (st : ConstructionState) (b : Building)
    (q : ConstructionProject)
    (hdt : ∀ s ∈ steps, 0 ≤ s.2)
    (hq : lookupProj st.projects b.id = some q)
    (hgood : GoodCState st) (hqid : q.id = b.id)
    (hle : q.actualProgress ≤ 1) (hct : 0 ≤ q.constructionTime)
    (hmq : ∀ m ∈ q.materials, 0 ≤ m.quality) :
    lookupProj (runConstructionUpdates (st, b) steps).1.projects b.id = none ∨
      ∃ q2, lookupProj (runConstructionUpdates (st, b) steps).1.projects b.id
          = some q2 ∧
        q.actualProgress ≤ q2.actualProgress ∧ q2.actualProgress ≤ 1 := by
  rcases runUpdates_progress_invariant steps st b q hdt hq hgood hqid hle hct hmq
    with h | ⟨q2, h1, h2, h3, _, _, _⟩
  · exact Or.inl h
  · exact Or.inr ⟨q2, h1, h2, h3⟩

/-- C5 witness data: a project with no materials and no phases. -/
def w5Project : ConstructionProject :=
  ⟨"b5", "b5", 1, 0, 100, 0, 0, 0, 10, 0, 0, 100, [], [], 0, false, none,
    1, 1, 0, 0⟩

/-- C5 witness data: its building. -/
def w5Building : Building :=
  ⟨"b5", ⟨0, 0, 0⟩, some .residential, .low, 1, .constructing, 0, 10, 100⟩

/-- C5 witness data: a state holding only `w5Project`, with no workers. -/
def w5State : ConstructionState :=
  ⟨[("b5", w5Project)], [], [], 1, 1, 1, 1, fun _ => 1/2, 0⟩

set_option maxRecDepth 4000 in
/-- C5, witness: two frames of one second each on `w5State` keep the
project's progress inside `[0, 1]` and non-decreasing. -/
theorem runConstructionUpdates_progress_monotone_witness :
    ((∀ s ∈ [((0 : ℚ), (1 : ℚ)), (1, 1)], 0 ≤ s.2) ∧ GoodCState w5State ∧
        w5Project.actualProgress ≤ 1) ∧
      (lookupProj (runConstructionUpdates (w5State, w5Building)
            [(0, 1), (1, 1)]).1.projects w5Building.id = none ∨
        ∃ q2, lookupProj (runConstructionUpdates (w5State, w5Building)
              [(0, 1), (1, 1)]).1.projects w5Building.id = some q2 ∧
          w5Project.actualProgress ≤ q2.actualProgress ∧
            q2.actualProgress ≤ 1) :=
  ⟨⟨by intro s hs; fin_cases hs <;> norm_num,
      by with_unfolding_all decide, by with_unfolding_all decide⟩,
    runConstructionUpdates_progress_monotone [(0, 1), (1, 1)] w5State w5Building
      w5Project (by intro s hs; fin_cases hs <;> norm_num)
      (by with_unfolding_all decide) (by with_unfolding_all decide)
      (by with_unfolding_all decide) (by with_unfolding_all decide)
      (by with_unfolding_all decide) (by intro m hm; cases hm)⟩

end Construction

namespace Path

instance : Inhabited Vec3 := ⟨⟨0, 0, 0⟩⟩

/-- `PathfindingSystem`'s grid (`src/unnamed/part_010`): node walkability is
a function of the grid coordinates, and the `obstacles` / `roads` string
sets are membership predicates on the `"x,y"` keys. -/
structure PFGrid where
  width : ℤ
  height : ℤ
  cellSize : ℚ
  worldSize : ℚ
  walkable : ℤ × ℤ → Bool
  obstacles : ℤ × ℤ → Bool
  roads : ℤ × ℤ → Bool

/-- `PathfindingSystem.worldToGrid` (lines 352-361): floor to a cell index,
then clamp into `[0, width-1] × [0, height-1]`. -/
def worldToGrid (g : PFGrid) (p : Vec3) : ℤ × ℤ :=
  let halfWidth := ((g.width : ℚ) * g.cellSize) / 2
  let halfHeight := ((g.height : ℚ) * g.cellSize) / 2
  let x := ⌊(p.x + halfWidth) / g.cellSize⌋
  let z := ⌊(p.z + halfHeight) / g.cellSize⌋
  (max 0 (min (g.width - 1) x), max 0 (min (g.height - 1) z))

/-- `PathfindingSystem.isValidGridPosition` (lines 363-365). -/
def isValidGridPosition (g : PFGrid) (x y : ℤ) : Bool :=
  decide (0 ≤ x) && decide (x < g.width) && decide (0 ≤ y) && decide (y < g.height)

/-- The world position stored in `grid.nodes[x][y]` by `initializeGrid`
(lines 42-63). -/
def nodePosition (g : PFGrid) (n : ℤ × ℤ) : Vec3 :=
  let halfSize := g.worldSize / 2
  ⟨-halfSize + ((n.1 : ℚ) + 1/2) * g.cellSize, 0,
    -halfSize + ((n.2 : ℚ) + 1/2) * g.cellSize⟩

/-- `PathfindingSystem.calculateHeuristic` (lines 261-268): octile distance. -/
def calculateHeuristic (rf : RealFns) (g : PFGrid) (a b : ℤ × ℤ) : ℚ :=
  let dx := |(nodePosition g a).x - (nodePosition g b).x|
  let dz := |(nodePosition g a).z - (nodePosition g b).z|
  max dx dz + (rf.sqrtQ 2 - 1) * min dx dz

/-- `PathfindingSystem.calculateDistance` (lines 270-280): Euclidean
distance with the road half-cost bonus. -/
def calculateDistance (rf : RealFns) (g : PFGrid) (a b : ℤ × ℤ) : ℚ :=
  let dx := |(nodePosition g a).x - (nodePosition g b).x|
  let dz := |(nodePosition g a).z - (nodePosition g b).z|
  let nodeKey := worldToGrid g (nodePosition g b)
  let roadBonus : ℚ := if g.roads nodeKey then 1/2 else 1
  rf.sqrtQ (dx * dx + dz * dz) * roadBonus

/-- `PathfindingSystem.getNeighbors` (lines 240-259): the eight axis and
diagonal offsets around the node's own grid cell, filtered to the grid. -/
def getNeighbors (g : PFGrid) (n : ℤ × ℤ) : List (ℤ × ℤ) :=
  let gridPos := worldToGrid g (nodePosition g n)
  ([(-1, 0), (1, 0), (0, -1), (0, 1),
    (-1, -1), (1, -1), (-1, 1), (1, 1)] : List (ℤ × ℤ)).filterMap (fun o =>
    let neighborX := gridPos.1 + o.1
    let neighborY := gridPos.2 + o.2
    if isValidGridPosition g neighborX neighborY then some (neighborX, neighborY)
    else none)

/-- `a < b` on JavaScript numbers where `none` stands for `Infinity`. -/
def pfLt : Option ℚ → Option ℚ → Bool
  | none, _ => false
  | some _, none => true
  | some a, some b => decide (a < b)

/-- `a >= b` on JavaScript numbers where `none` stands for `Infinity`. -/
def pfGe : Option ℚ → Option ℚ → Bool
  | none, _ => true
  | some _, none => false
  | some a, some b => decide (b ≤ a)

/-- The per-node mutable fields of the A* search (`gCost`/`fCost` may be the
reset value `Infinity`, modelled as `none`). -/
structure AState where
  openSet : List (ℤ × ℤ)
  closed : List (ℤ × ℤ)
  gCost : ℤ × ℤ → Option ℚ
  hCost : ℤ × ℤ → ℚ
  fCost : ℤ × ℤ → Option ℚ
  parent : ℤ × ℤ → Option (ℤ × ℤ)

/-- The `openSet` scan of `aStarSearch` (lines 195-204): lowest `fCost`,
ties broken by strictly lower `hCost`, keeping the earliest such index. -/
def scanMin (fC : ℤ × ℤ → Option ℚ) (hC : ℤ × ℤ → ℚ) :
    List (ℤ × ℤ) → ℕ → (ℤ × ℤ) → ℕ → ℕ × (ℤ × ℤ)
  | [], _, best, bestIdx => (bestIdx, best)
  | n :: rest, i, best, bestIdx =>
      if pfLt (fC n) (fC best) ∨ (fC n = fC best ∧ hC n < hC best) then
        scanMin fC hC rest (i + 1) n i
      else scanMin fC hC rest (i + 1) best bestIdx

/-- `PathfindingSystem.reconstructPath` (lines 282-292), with fuel bounding
the parent-pointer chain. -/
def reconstructPath (g : PFGrid) (parent : ℤ × ℤ → Option (ℤ × ℤ)) :
    ℕ → ℤ × ℤ → List Vec3
  | 0, _ => []
  | fuel + 1, n =>
      match parent n with
      | none => [nodePosition g n]
      | some p => reconstructPath g parent fuel p ++ [nodePosition g n]

/-- The neighbour-relaxation block of `aStarSearch` (lines 217-234). -/
def relaxNeighbor (rf : RealFns) (g : PFGrid) (endN currentNode : ℤ × ℤ)
    (s : AState) (nb : ℤ × ℤ) : AState :=
  if ¬g.walkable nb ∨ nb ∈ s.closed then s
  else
    let tentativeGCost := (s.gCost currentNode).map
      (fun gc => gc + calculateDistance rf g currentNode nb)
    let pushed := nb ∉ s.openSet
    if ¬pushed ∧ pfGe tentativeGCost (s.gCost nb) then s
    else
      { s with
        openSet := if pushed then s.openSet ++ [nb] else s.openSet
        parent := fun m => if m = nb then some currentNode else s.parent m
        gCost := fun m => if m = nb then tentativeGCost else s.gCost m
        hCost := fun m => if m = nb then calculateHeuristic rf g nb endN
          else s.hCost m
        fCost := fun m => if m = nb then tentativeGCost.map
            (fun gc => gc + calculateHeuristic rf g nb endN)
          else s.fCost m }

/-- The `while (openSet.length > 0)` loop of `aStarSearch` (lines 193-235);
the fuel is an upper bound on the number of iterations (each iteration
closes one never-reopened node). -/
def aStarLoop (rf : RealFns) (g : PFGrid) (endN : ℤ × ℤ) :
    ℕ → AState → List Vec3
  | 0, _ => []
  | fuel + 1, s =>
      match hOpen : s.openSet with
      | [] => []
      | c :: rest =>
          let sel := scanMin s.fCost s.hCost rest 1 c 0
          let currentNode := sel.2
          let s1 := { s with
            openSet := s.openSet.eraseIdx sel.1
            closed := currentNode :: s.closed }
          if currentNode = endN then
            reconstructPath g s.parent (g.width.toNat * g.height.toNat + 1) endN
          else
            aStarLoop rf g endN fuel
              ((getNeighbors g currentNode).foldl
                (relaxNeighbor rf g endN currentNode) s1)

/-- `PathfindingSystem.aStarSearch` (lines 174-238): cost reset, start-node
initialisation and the search loop. -/
def aStarSearch (rf : RealFns) (g : PFGrid) (startN endN : ℤ × ℤ) :
    List Vec3 :=
  aStarLoop rf g endN (g.width.toNat * g.height.toNat + 1)
    { openSet := [startN]
      closed := []
      gCost := fun n => if n = startN then some 0 else none
      hCost := fun n => if n = startN then calculateHeuristic rf g startN endN
        else 0
      fCost := fun n => if n = startN then
          some (0 + calculateHeuristic rf g startN endN)
        else some 0
      parent := fun _ => none }

/-- `PathfindingSystem.hasLineOfSight` (lines 319-335). -/
def hasLineOfSight (rf : RealFns) (g : PFGrid) (s e : Vec3) : Bool :=
  let distance := rf.sqrtQ (distSq s e)
  let steps := ⌈distance / (g.cellSize / 2)⌉
  (List.range (steps + 1).toNat).all (fun (i : ℕ) =>
    let t := (i : ℚ) / (steps : ℚ)
    let point := lerpVec s e t
    let gridPos := worldToGrid g point
    isValidGridPosition g gridPos.1 gridPos.2 && !g.obstacles gridPos)

/-- The farthest-visible-point scan of `smoothPath` (lines 301-310). -/
def findFarthest (rf : RealFns) (g : PFGrid) (path : List Vec3)
    (currentIndex : ℕ) : ℕ → ℕ → ℕ → ℕ
  | 0, _, farthest => farthest
  | fuel + 1, i, farthest =>
      if i < path.length then
        if hasLineOfSight rf g (path.getD currentIndex default)
            (path.getD i default) then
          findFarthest rf g path currentIndex fuel (i + 1) i
        else farthest
      else farthest

/-- The `while (currentIndex < path.length - 1)` loop of `smoothPath`
(lines 300-314); the index strictly increases so `path.length` iterations
suffice. -/
def smoothLoop (rf : RealFns) (g : PFGrid) (path : List Vec3) :
    ℕ → ℕ → List Vec3
  | 0, _ => []
  | fuel + 1, currentIndex =>
      if currentIndex < path.length - 1 then
        let farthest := findFarthest rf g path currentIndex path.length
          (currentIndex + 2) (currentIndex + 1)
        path.getD farthest default :: smoothLoop rf g path fuel farthest
      else []

/-- `PathfindingSystem.smoothPath` (lines 294-317). -/
def smoothPath (rf : RealFns) (g : PFGrid) (path : List Vec3) : List Vec3 :=
  if path.length ≤ 2 then path
  else path.headD default :: smoothLoop rf g path path.length 0

/-- `PathfindingSystem.generateDirectPath` (lines 337-350): `max 2
⌊distance/5⌋ + 1` evenly spaced points with `y` forced to `0.5`. -/
def generateDirectPath (rf : RealFns) (s e : Vec3) : List Vec3 :=
  let distance := rf.sqrtQ (distSq s e)
  let segments := max 2 ⌊distance / 5⌋
  (List.range (segments + 1).toNat).map (fun (i : ℕ) =>
    let t := (i : ℚ) / (segments : ℚ)
    let point := lerpVec s e t
    ⟨point.x, 1/2, point.z⟩)

/-- `PathfindingSystem.findPath` (lines 149-172). -/
def findPath (rf : RealFns) (g : PFGrid) (startPos endPos : Vec3) :
    List Vec3 :=
  let startGrid := worldToGrid g startPos
  let endGrid := worldToGrid g endPos
  if ¬isValidGridPosition g startGrid.1 startGrid.2 ∨
      ¬isValidGridPosition g endGrid.1 endGrid.2 then
    generateDirectPath rf startPos endPos
  else if ¬g.walkable startGrid ∨ ¬g.walkable endGrid then
    generateDirectPath rf startPos endPos
  else
    let path := aStarSearch rf g startGrid endGrid
    if path = [] then generateDirectPath rf startPos endPos
    else smoothPath rf g path

lemma generateDirectPath_length (rf : RealFns) (s e : Vec3) :
    0 < (generateDirectPath rf s e).length := by
  unfold generateDirectPath
  dsimp only
  simp only [List.length_map, List.length_range]
  have h3 : (0 : ℤ) < max 2 ⌊rf.sqrtQ (distSq s e) / 5⌋ + 1 := by
    have h2 : (2 : ℤ) ≤ max 2 ⌊rf.sqrtQ (distSq s e) / 5⌋ := le_max_left _ _
    linarith
  omega

lemma smoothPath_length (rf : RealFns) (g : PFGrid) (path : List Vec3)
    (h : path ≠ []) : 0 < (smoothPath rf g path).length := by
  unfold smoothPath
  split
  · exact List.length_pos.mpr h
  · simp

/-- C6: `findPath` is total and never yields an empty waypoint list (so
"empty only if start = end" holds vacuously); whenever the start or end
cell is blocked, or the A* search finds no path, the result is exactly the
direct evenly-spaced interpolation `generateDirectPath`. -/
theorem findPath_total_fallback (rf : RealFns) (g : PFGrid) (s e : Vec3) :
    0 < (findPath rf g s e).length ∧
      (findPath rf g s e = [] → s = e) ∧
      ((g.walkable (worldToGrid g s) = false ∨
          g.walkable (worldToGrid g e) = false) →
        findPath rf g s e = generateDirectPath rf s e) ∧
      (aStarSearch rf g (worldToGrid g s) (worldToGrid g e) = [] →
        findPath rf g s e = generateDirectPath rf s e) := by
  have hlen : 0 < (findPath rf g s e).length := by
    unfold findPath
    dsimp only
    split
    · exact generateDirectPath_length rf s e
    · split
      · exact generateDirectPath_length rf s e
      · split
        · exact generateDirectPath_length rf s e
        · next hne => exact smoothPath_length rf g _ hne
  refine ⟨hlen, ?_, ?_, ?_⟩
  · intro h
    rw [h] at hlen
    simp at hlen
  · intro hwk
    unfold findPath
    dsimp only
    split
    · rfl
    · split
      · rfl
      · next hw =>
          exfalso
          push_neg at hw
          rcases hwk with h1 | h1
          · rw [h1] at hw
            exact Bool.false_ne_true hw.1
          · rw [h1] at hw
            exact Bool.false_ne_true hw.2
  · intro hA
    unfold findPath
    dsimp only
    split
    · rfl
    · split
      · rfl
      · simp [hA]

/-- C10: `worldToGrid` always clamps into `[0, width-1] × [0, height-1]`
(snapping an out-of-range floor index to the nearest border cell), so on a
non-degenerate grid `isValidGridPosition` holds for every converted
position and the outside-grid guard of `findPath` never fires: `findPath`
reduces to the walkability check, the search and its empty-path fallback. -/
theorem worldToGrid_clamped_no_outside_fallback (g : PFGrid)
    (hw : 1 ≤ g.width) (hh : 1 ≤ g.height) (p : Vec3) (rf : RealFns)
    (s e : Vec3) :
    (0 ≤ (worldToGrid g p).1 ∧ (worldToGrid g p).1 ≤ g.width - 1 ∧
      0 ≤ (worldToGrid g p).2 ∧ (worldToGrid g p).2 ≤ g.height - 1) ∧
      isValidGridPosition g (worldToGrid g p).1 (worldToGrid g p).2 = true ∧
      (g.width ≤ ⌊(p.x + ((g.width : ℚ) * g.cellSize) / 2) / g.cellSize⌋ →
        (worldToGrid g p).1 = g.width - 1) ∧
      (⌊(p.x + ((g.width : ℚ) * g.cellSize) / 2) / g.cellSize⌋ < 0 →
        (worldToGrid g p).1 = 0) ∧
      (findPath rf g s e =
        if ¬g.walkable (worldToGrid g s) ∨ ¬g.walkable (worldToGrid g e) then
          generateDirectPath rf s e
        else if aStarSearch rf g (worldToGrid g s) (worldToGrid g e) = [] then
          generateDirectPath rf s e
        else smoothPath rf g (aStarSearch rf g (worldToGrid g s)
          (worldToGrid g e))) := by
  have hbounds : ∀ q : Vec3, 0 ≤ (worldToGrid g q).1 ∧
      (worldToGrid g q).1 ≤ g.width - 1 ∧ 0 ≤ (worldToGrid g q).2 ∧
      (worldToGrid g q).2 ≤ g.height - 1 := by
    intro q
    unfold worldToGrid
    dsimp only
    refine ⟨le_max_left _ _, ?_, le_max_left _ _, ?_⟩
    · exact max_le (by omega) (min_le_left _ _)
    · exact max_le (by omega) (min_le_left _ _)
  have hvalid : ∀ q : Vec3, isValidGridPosition g (worldToGrid g q).1
      (worldToGrid g q).2 = true := by
    intro q
    obtain ⟨h1, h2, h3, h4⟩ := hbounds q
    unfold isValidGridPosition
    simp only [Bool.and_eq_true, decide_eq_true_eq]
    exact ⟨⟨⟨h1, by omega⟩, h3⟩, by omega⟩
  refine ⟨hbounds p, hvalid p, ?_, ?_, ?_⟩
  · intro hx
    unfold worldToGrid
    dsimp only
    rw [min_eq_left (by omega), max_eq_right (by omega)]
  · intro hx
    unfold worldToGrid
    dsimp only
    rw [min_eq_right (by omega), max_eq_left (by omega)]
  · unfold findPath
    dsimp only
    rw [if_neg (by simp [hvalid s, hvalid e])]

/-- C10 witness data: a 2×2 grid of unit cells with nothing walkable. -/
def w10Grid : PFGrid :=
  ⟨2, 2, 1, 2, fun _ => false, fun _ => false, fun _ => false⟩

/-- C10 witness data: an identity stand-in for the `Math.sqrt`-style
oracle (the claim does not depend on its values). -/
def w10RealFns : RealFns := ⟨fun q => q, fun q => q, fun q => q⟩

set_option maxRecDepth 4000 in
/-- C10, witness: the point `(10, 0, 10)` lies far outside the 2×2 world,
yet `worldToGrid` snaps it to the border cell `(1, 1)`, the validity check
passes and `findPath` from it follows the walkability/search path, not the
outside-grid fallback. -/
theorem worldToGrid_clamped_no_outside_fallback_witness :
    ((1 : ℤ) ≤ w10Grid.width ∧ (1 : ℤ) ≤ w10Grid.height) ∧
      ((0 ≤ (worldToGrid w10Grid ⟨10, 0, 10⟩).1 ∧
          (worldToGrid w10Grid ⟨10, 0, 10⟩).1 ≤ w10Grid.width - 1 ∧
          0 ≤ (worldToGrid w10Grid ⟨10, 0, 10⟩).2 ∧
          (worldToGrid w10Grid ⟨10, 0, 10⟩).2 ≤ w10Grid.height - 1) ∧
        isValidGridPosition w10Grid (worldToGrid w10Grid ⟨10, 0, 10⟩).1
          (worldToGrid w10Grid ⟨10, 0, 10⟩).2 = true ∧
        (w10Grid.width ≤
            ⌊((10 : ℚ) + ((w10Grid.width : ℚ) * w10Grid.cellSize) / 2) /
              w10Grid.cellSize⌋ →
          (worldToGrid w10Grid ⟨10, 0, 10⟩).1 = w10Grid.width - 1) ∧
        (⌊((10 : ℚ) + ((w10Grid.width : ℚ) * w10Grid.cellSize) / 2) /
              w10Grid.cellSize⌋ < 0 →
          (worldToGrid w10Grid ⟨10, 0, 10⟩).1 = 0) ∧
        (findPath w10RealFns w10Grid ⟨10, 0, 10⟩ ⟨0, 0, 0⟩ =
          if ¬w10Grid.walkable (worldToGrid w10Grid ⟨10, 0, 10⟩) ∨
              ¬w10Grid.walkable (worldToGrid w10Grid ⟨0, 0, 0⟩) then
            generateDirectPath w10RealFns ⟨10, 0, 10⟩ ⟨0, 0, 0⟩
          else if aStarSearch w10RealFns w10Grid
              (worldToGrid w10Grid ⟨10, 0, 10⟩)
              (worldToGrid w10Grid ⟨0, 0, 0⟩) = [] then
            generateDirectPath w10RealFns ⟨10, 0, 10⟩ ⟨0, 0, 0⟩
          else smoothPath w10RealFns w10Grid (aStarSearch w10RealFns w10Grid
            (worldToGrid w10Grid ⟨10, 0, 10⟩)
            (worldToGrid w10Grid ⟨0, 0, 0⟩)))) :=
  ⟨⟨by with_unfolding_all decide, by with_unfolding_all decide⟩,
    worldToGrid_clamped_no_outside_fallback w10Grid
      (by with_unfolding_all decide) (by with_unfolding_all decide)
      ⟨10, 0, 10⟩ w10RealFns ⟨10, 0, 10⟩ ⟨0, 0, 0⟩⟩

end Path

end SimWorld
